import Mathlib

/-!
Verification of the claude-hooks policy-check engine.

This file gives a shallow embedding, in Lean 4, of the Python hook logic of
the repository (plugins/git-hooks, plugins/command-safety, plugins/env-protection,
plugins/file-protection) and proves properties of the checks.

Modelling conventions:
- Python strings are Lean `String`s; scanning logic works on `List Char`.
- External processes (git, the shell) are modelled as oracle functions carried
  in a context structure; `none` models a raised exception where the source
  catches one.
- Python regular expressions are embedded as decidable matching functions whose
  semantics (including backtracking behaviour) is derived in comments at each
  definition.
- Python truthiness of `None`/`''` is modelled explicitly (`truthyOpt`).
-/

namespace ClaudeHooks

/-- Whitespace as used by Python str.strip / str.split (ASCII part; the
commands handled by the hooks are ASCII). -/
def pyIsSpace (c : Char) : Bool :=
  c == ' ' || c == '\t' || c == '\n' || c == '\r' || c == '\x0b' || c == '\x0c'

/-- Python str.strip() on a character list: drop whitespace from both ends. -/
def pyStripL (l : List Char) : List Char :=
  ((l.dropWhile pyIsSpace).reverse.dropWhile pyIsSpace).reverse

/-- Python str.strip() on strings. -/
def pyStrip (s : String) : String := ⟨pyStripL s.data⟩

/-- Python str.split() (no argument): split on whitespace runs, dropping
empty pieces. -/
def pySplitWsL : List Char → List (List Char)
  | [] => []
  | c :: rest =>
    if pyIsSpace c then pySplitWsL rest
    else
      match pySplitWsL rest with
      | [] => [[c]]
      | p :: ps =>
        match rest with
        | [] => [[c]]
        | d :: _ => if pyIsSpace d then [c] :: p :: ps else (c :: p) :: ps

/-- Python str.split() on strings. -/
def pySplitWs (s : String) : List String := (pySplitWsL s.data).map (⟨·⟩)

/-- Python ' '.join(command.strip().split()): collapse all whitespace runs to
single spaces (the normalisation step used by several checks). -/
def normSpaces (s : String) : String := " ".intercalate (pySplitWs s)

/-- ASCII lower-casing of one character (the hook inputs are ASCII). -/
def pyLowerC (c : Char) : Char :=
  if 'A' ≤ c && c ≤ 'Z' then Char.ofNat (c.toNat + 32) else c

/-- Python str.lower() (ASCII fragment). -/
def pyLower (s : String) : String := ⟨s.data.map pyLowerC⟩

/-- ASCII upper-casing of one character. -/
def pyUpperC (c : Char) : Char :=
  if 'a' ≤ c && c ≤ 'z' then Char.ofNat (c.toNat - 32) else c

/-- Python str.upper() (ASCII fragment). -/
def pyUpper (s : String) : String := ⟨s.data.map pyUpperC⟩

/-- Python str.startswith. -/
def pyStarts (s pre : String) : Bool := pre.data.isPrefixOf s.data

/-- Python substring containment (the `in` operator on str). -/
def pySubL (pat : List Char) : List Char → Bool
  | [] => pat.isEmpty
  | l@(_ :: rest) => pat.isPrefixOf l || pySubL pat rest

/-- Python `sub in s`. -/
def pySub (sub s : String) : Bool := pySubL sub.data s.data

/-- Python os.path.basename for POSIX paths: the part after the last slash. -/
def pyBasename (s : String) : String :=
  ⟨(s.data.reverse.takeWhile (· ≠ '/')).reverse⟩

/-- Python str.rstrip('/'): drop all trailing slashes. -/
def rstripSlash (s : String) : String :=
  ⟨(s.data.reverse.dropWhile (· == '/')).reverse⟩

/-- Python str.strip(c) for a single character c: drop it from both ends. -/
def pyStripChar (c : Char) (s : String) : String :=
  ⟨((s.data.dropWhile (· == c)).reverse.dropWhile (· == c)).reverse⟩

/-- Python str.split(sep) for a one-character separator: keeps empty pieces
(so that e.g. splitting "a||b" on the pipe gives ["a", "", "b"]). -/
def pySplitCharL (sep : Char) : List Char → List (List Char)
  | [] => [[]]
  | c :: rest =>
    if c == sep then [] :: pySplitCharL sep rest
    else
      match pySplitCharL sep rest with
      | [] => [[c]]
      | p :: ps => (c :: p) :: ps

/-- Python str.split(sep) on strings (single-character separator). -/
def pySplitChar (sep : Char) (s : String) : List String :=
  (pySplitCharL sep s.data).map (⟨·⟩)

/-- Python s.split(sep, 1)[1]: everything after the first occurrence of sep
(total: returns the empty string when sep does not occur). -/
def afterFirstL (sep : Char) : List Char → List Char
  | [] => []
  | c :: rest => if c == sep then rest else afterFirstL sep rest

/-- Everything after the first occurrence of a character. -/
def afterFirst (sep : Char) (s : String) : String := ⟨afterFirstL sep s.data⟩

/-- Python truthiness of an optional string: None and the empty string are
falsy. -/
def truthyOpt : Option String → Bool
  | none => false
  | some s => s ≠ ""

/-- Python `a or b` over optional strings (used for `git_c_path or cwd`). -/
def pyOrOpt (a b : Option String) : Option String :=
  if truthyOpt a then a else b

/-! ### Python str.replace -/

/-- Python str.replace("", new, count): insert new before every character and
at the end, limited by the optional count. -/
def pyRepEmpty (new : List Char) : List Char → Option Nat → List Char
  | s, some 0 => s
  | [], _ => new
  | c :: rest, cnt => new ++ c :: pyRepEmpty new rest (cnt.map (· - 1))

/-- Python str.replace with a nonempty pattern `o :: os`: replace
non-overlapping occurrences left to right, limited by the optional count. -/
def pyRepGo (o : Char) (os new : List Char) : List Char → Option Nat → List Char
  | [], _ => []
  | c :: rest, cnt =>
    if cnt = some 0 then c :: rest
    else if (o :: os).isPrefixOf (c :: rest) then
      new ++ pyRepGo o os new (rest.drop os.length) (cnt.map (· - 1))
    else c :: pyRepGo o os new rest cnt
termination_by s => s.length
decreasing_by
  · simp [List.length_drop]
    omega
  · simp

/-- Python str.replace(old, new) / str.replace(old, new, count): `none` is the
unlimited form. -/
def pyReplace (s old new : String) (cnt : Option Nat) : String :=
  match old.data with
  | [] => ⟨pyRepEmpty new.data s.data cnt⟩
  | o :: os => ⟨pyRepGo o os new.data s.data cnt⟩

/-! ### shlex (Python stdlib) — posix mode with whitespace_split, no comments

shlex.split drives the shlex state machine with posix=True,
whitespace_split=True, commenters=''.  The reachable configurations are:
whitespace state, word state, single-quote state, double-quote state, and the
escape state remembering whether it was entered from word context or from
inside double quotes.  A token is emitted on whitespace/EOF in word state when
the accumulated token is nonempty or a quote was seen (so quoted empty strings
are kept).  An EOF in a quote state raises "No closing quotation"; an EOF in
an escape state raises "No escaped character" — both are modelled as `none`.
Inside double quotes a backslash escapes only the double quote and the
backslash itself; otherwise the backslash is kept literally. -/

inductive ShlexState where
  | ws
  | word
  | squote
  | dquote
  | escW
  | escD
  deriving DecidableEq

/-- One pass of the shlex.read_token loop over the whole input.  `tok` is the
current token accumulated in reverse; `q` records whether the current token
saw a quote; `acc` collects finished tokens in reverse. -/
def shlexGo : List Char → ShlexState → List Char → Bool → List (List Char) →
    Option (List (List Char))
  | [], .ws, _, _, acc => some acc.reverse
  | [], .word, tok, q, acc =>
    if tok ≠ [] || q then some ((tok.reverse :: acc).reverse) else some acc.reverse
  | [], .squote, _, _, _ => none
  | [], .dquote, _, _, _ => none
  | [], .escW, _, _, _ => none
  | [], .escD, _, _, _ => none
  | c :: rest, .ws, tok, q, acc =>
    if pyIsSpace c then shlexGo rest .ws tok q acc
    else if c = '\\' then shlexGo rest .escW tok q acc
    else if c = '\x27' then shlexGo rest .squote tok true acc
    else if c = '"' then shlexGo rest .dquote tok true acc
    else shlexGo rest .word [c] q acc
  | c :: rest, .word, tok, q, acc =>
    if pyIsSpace c then
      if tok ≠ [] || q then shlexGo rest .ws [] false (tok.reverse :: acc)
      else shlexGo rest .ws [] false acc
    else if c = '\\' then shlexGo rest .escW tok q acc
    else if c = '\x27' then shlexGo rest .squote tok true acc
    else if c = '"' then shlexGo rest .dquote tok true acc
    else shlexGo rest .word (c :: tok) q acc
  | c :: rest, .squote, tok, q, acc =>
    if c = '\x27' then shlexGo rest .word tok q acc
    else shlexGo rest .squote (c :: tok) q acc
  | c :: rest, .dquote, tok, q, acc =>
    if c = '"' then shlexGo rest .word tok q acc
    else if c = '\\' then shlexGo rest .escD tok q acc
    else shlexGo rest .dquote (c :: tok) q acc
  | c :: rest, .escW, tok, q, acc => shlexGo rest .word (c :: tok) q acc
  | c :: rest, .escD, tok, q, acc =>
    if c = '\\' || c = '"' then shlexGo rest .dquote (c :: tok) q acc
    else shlexGo rest .dquote (c :: '\\' :: tok) q acc

/-- shlex.split(s): `none` models the ValueError raised on unbalanced quoting
or a trailing escape character. -/
def shlex_split (s : String) : Option (List String) :=
  (shlexGo s.data .ws [] false []).map (·.map (⟨·⟩))

/-- Characters that need no quoting for shlex.quote: ASCII word characters
and the punctuation set at-sign percent plus equals colon comma dot slash
dash (the complement of the _find_unsafe character class with re.ASCII). -/
def shlexSafeChar (c : Char) : Bool :=
  (c.isAlpha && c.toNat < 128) || (c.isDigit && c.toNat < 128) || c = '_' ||
    c = '@' || c = '%' || c = '+' || c = '=' || c = ':' || c = ',' ||
    c = '.' || c = '/' || c = '-'

/-- shlex.quote(s): quote a token for shell use. -/
def shlexQuote (s : String) : String :=
  if s = "" then "\x27\x27"
  else if s.data.all shlexSafeChar then s
  else "\x27" ++ pyReplace s "\x27" "\x27\"\x27\"\x27" none ++ "\x27"

/-- shlex.join: space-join the quoted tokens. -/
def shlexJoin (parts : List String) : String :=
  " ".intercalate (parts.map shlexQuote)

/-! ### Compound-command splitting (command_utils.extract_subcommands)

The source splits with `re.split(r'\s*(?:&&|\|\||;)\s*', command)` and then
strips each piece and drops empty pieces.  Because every piece is stripped
afterwards, consuming the `\s*` context around each separator inside the split
is observationally equal to splitting at the bare separators `&&`, `||`, `;`
and stripping afterwards; `splitSepsL` therefore splits at the bare separators.
The regular expression is quote-blind: a separator inside quotes still splits.
-/

/-- Split a character list at every occurrence of the separators `&&`, `||`
and `;`, scanning left to right (the leftmost-match rule of re.split). -/
def splitSepsL : List Char → List (List Char)
  | [] => [[]]
  | '&' :: '&' :: rest => [] :: splitSepsL rest
  | '|' :: '|' :: rest => [] :: splitSepsL rest
  | ';' :: rest => [] :: splitSepsL rest
  | c :: rest =>
    match splitSepsL rest with
    | [] => [[c]]
    | p :: ps => (c :: p) :: ps

/-- command_utils.extract_subcommands: split a compound bash command on
`&&`, `||`, `;`, strip each piece, drop empty pieces.  (git_branch_workflow.py
carries an identical copy of this function without the empty-command guard;
both agree on every input since splitting the empty string yields only an
empty piece, which is dropped.) -/
def extract_subcommands (command : String) : List String :=
  if command = "" then []
  else ((splitSepsL command.data).map (fun cs => pyStrip ⟨cs⟩)).filter (fun s => s ≠ "")

/-- No separator (`&&`, `||`, `;`) occurs in the character list. -/
def noSepL : List Char → Bool
  | [] => true
  | '&' :: '&' :: _ => false
  | '|' :: '|' :: _ => false
  | ';' :: _ => false
  | _ :: rest => noSepL rest

/-! ### git_branch_workflow.py -/

/-- Three-valued hook decision ("allow" / "ask" / "block" in the source). -/
inductive Decision where
  | allow
  | ask
  | block
  deriving DecidableEq, Repr

/-- Oracle context for the branch-workflow hook.  `branchRaw cwd` models the
result of running `git rev-parse --abbrev-ref HEAD` in `cwd`: `none` is a
raised exception (timeout, missing binary), `some (rc, out)` a completed
process with return code `rc` and stdout `out`.  `expanduser` models
os.path.expanduser. -/
structure WorkflowCtx where
  branchRaw : Option String → Option (Int × String)
  expanduser : String → String

/-- Uppercase ASCII letter. -/
def isAsciiUpper (c : Char) : Bool := 'A' ≤ c && c ≤ 'Z'

/-- JIRA_PATTERN = `[A-Z]+-` followed by at least one digit, anchored at the
start (re.match).  Since the uppercase run cannot contain the dash, the
backtracking search is equivalent to: maximal uppercase run (nonempty), then
a dash, then a digit. -/
def jiraMatchL : List Char → Bool
  | l =>
    let up := l.takeWhile isAsciiUpper
    let rest := l.drop up.length
    up ≠ [] &&
      (match rest with
       | '-' :: d :: _ => d.isDigit
       | _ => false)

/-- JIRA_PATTERN.match on strings. -/
def jiraMatch (s : String) : Bool := jiraMatchL s.data

/-- PROTECTED_BRANCHES. -/
def protectedBranches : List String := ["main", "master"]

/-- STASH_STORE_SUBCOMMANDS (empty string = bare git stash). -/
def stashStoreSubcommands : List String := ["push", "save", ""]

/-- STASH_RETRIEVE_SUBCOMMANDS. -/
def stashRetrieveSubcommands : List String :=
  ["pop", "apply", "list", "drop", "clear", "show", "branch"]

/-- get_current_branch: strip stdout on return code 0, otherwise None; an
exception also yields None. -/
def get_current_branch (ctx : WorkflowCtx) (cwd : Option String) : Option String :=
  match ctx.branchRaw cwd with
  | none => none
  | some (rc, out) => if rc = 0 then some (pyStrip out) else none

/-- extract_cd_target: target directory of a `cd` command (expanduser
applied), None otherwise or on a shlex error. -/
def extract_cd_target (ctx : WorkflowCtx) (command : String) : Option String :=
  match shlex_split command with
  | none => none
  | some (p0 :: p1 :: _) => if p0 = "cd" then some (ctx.expanduser p1) else none
  | some _ => none

/-- The scanning loop of normalize_git_command, starting after the leading
"git" token: extract `-C`, `--work-tree`, `--git-dir` options (in both the
space-separated and attached forms, last occurrence winning per option) and
collect the remaining tokens.  `acc` holds kept tokens in reverse. -/
def normScan (eu : String → String) :
    List String → Option String → Option String → Option String → List String →
    (List String × Option String × Option String × Option String)
  | [], c, w, g, acc => (acc.reverse, c, w, g)
  | p :: rest, c, w, g, acc =>
    if p = "-C" then
      match rest with
      | q :: rest2 => normScan eu rest2 (some (eu q)) w g acc
      | [] => ((p :: acc).reverse, c, w, g)
    else if pyStarts p "-C" && p.length > 2 then
      normScan eu rest (some (eu ⟨p.data.drop 2⟩)) w g acc
    else if pyStarts p "--work-tree=" then
      normScan eu rest c (some (eu (afterFirst '=' p))) g acc
    else if p = "--work-tree" then
      match rest with
      | q :: rest2 => normScan eu rest2 c (some (eu q)) g acc
      | [] => ((p :: acc).reverse, c, w, g)
    else if pyStarts p "--git-dir=" then
      normScan eu rest c w (some (eu (afterFirst '=' p))) acc
    else if p = "--git-dir" then
      match rest with
      | q :: rest2 => normScan eu rest2 c w (some (eu q)) acc
      | [] => ((p :: acc).reverse, c, w, g)
    else normScan eu rest c w g (p :: acc)

/-- normalize_git_command: strip git directory options and report the
effective working directory (`-C` over `--work-tree` over `--git-dir`, with
Python `or` truthiness).  On a shlex error, or when the command does not
start with a `git` token of at least two tokens, the command is returned
unchanged with no directory. -/
def normalize_git_command (ctx : WorkflowCtx) (command : String) :
    String × Option String :=
  match shlex_split command with
  | none => (command, none)
  | some parts =>
    match parts with
    | p0 :: p1 :: rest =>
      if p0 = "git" then
        let r := normScan ctx.expanduser (p1 :: rest) none none none ["git"]
        (shlexJoin r.1, pyOrOpt r.2.1 (pyOrOpt r.2.2.1 r.2.2.2))
      else (command, none)
    | _ => (command, none)

/-- First element following the first occurrence of `flag` in `parts`
(None when absent or when the flag is the last token) — the
`flag in parts` / `parts.index(flag)` / `idx + 1 < len(parts)` idiom. -/
def afterFlag (parts : List String) (flag : String) : Option String :=
  match parts.indexOf? flag with
  | some idx => parts.get? (idx + 1)
  | none => none

/-- extract_new_branch_name: branch name of `git checkout -b <branch>` or
`git switch -c <branch>` / `git switch --create <branch>`; None otherwise,
on shlex errors, and for commands of fewer than four tokens. -/
def extract_new_branch_name (command : String) : Option String :=
  match shlex_split command with
  | none => none
  | some parts =>
    if parts.length < 4 then none
    else
      match parts with
      | p0 :: p1 :: _ =>
        if p0 = "git" && p1 = "checkout" then
          match afterFlag parts "-b" with
          | some b => some b
          | none => none
        else if p0 = "git" && p1 = "switch" then
          match afterFlag parts "-c" with
          | some b => some b
          | none => afterFlag parts "--create"
        else none
      | _ => none

/-- Reason text for a commit on a protected branch. -/
def protectedBranchReason (branch : String) : String :=
  "COMMIT ON PROTECTED BRANCH BLOCKED\n\nCannot commit directly to \x27" ++ branch ++
    "\x27.\n\nRequired workflow:\n1. Create a feature branch with Jira prefix: git checkout -b PROJ-123-description\n2. Make your changes and commit there\n3. Create a PR to merge back"

/-- Reason text for a commit on a branch without the Jira pattern. -/
def missingJiraReason (branch : String) : String :=
  "BRANCH MISSING JIRA PREFIX\n\nCurrent branch: " ++ branch ++
    "\n\nBranch names should start with a Jira issue (e.g., ORG-123-feature-description).\n\nThis helps track work back to tickets. Continue with this branch name?"

/-- Reason text for blocking git stash store operations. -/
def stashBlockReason : String :=
  "GIT STASH BLOCKED\n\ngit stash bypasses the branch workflow by hiding uncommitted changes.\n\nRequired workflow:\n1. Create a feature branch: git checkout -b PROJ-123-wip\n2. Commit your work-in-progress there"

/-- Reason text for creating a branch without the Jira pattern. -/
def proposedBranchReason (newBranch : String) : String :=
  "BRANCH MISSING JIRA PREFIX\n\nProposed branch: " ++ newBranch ++
    "\n\nBranch names should start with a Jira issue (e.g., ORG-123-" ++ newBranch ++
    ").\n\nWhat\x27s the Jira issue for this work? Or continue with this name?"

/-- The `git stash` try-block of _check_single_subcommand: Some decision when
the block returns, None when it falls through (unknown stash subcommand or a
shlex error). -/
def stashCheck (subcmd : String) : Option (Decision × Option String) :=
  match shlex_split subcmd with
  | none => none
  | some parts =>
    let stashSub := (parts.get? 2).getD ""
    if stashSub ∈ stashRetrieveSubcommands then some (.allow, none)
    else if stashSub ∈ stashStoreSubcommands || pyStarts stashSub "-" then
      some (.block, some stashBlockReason)
    else none

/-- Effective working directory of a subcommand: the directory extracted by
normalize_git_command if truthy, else the carried cwd. -/
def effectiveCwd (ctx : WorkflowCtx) (subcmd : String) (cwd : Option String) :
    Option String :=
  pyOrOpt (normalize_git_command ctx (pyStrip subcmd)).2 cwd

/-- _check_single_subcommand of git_branch_workflow.py. -/
def _check_single_subcommand (ctx : WorkflowCtx) (subcmd : String)
    (cwd : Option String) : Decision × Option String :=
  let normalized := pyLower (normalize_git_command ctx (pyStrip subcmd)).1
  if pyStarts normalized "git commit" then
    match get_current_branch ctx (effectiveCwd ctx subcmd cwd) with
    | none => (.allow, none)
    | some branch =>
      if branch ∈ protectedBranches then
        (.block, some (protectedBranchReason branch))
      else if ¬ jiraMatch branch then (.ask, some (missingJiraReason branch))
      else (.ask, some "Git commit requires your approval.")
  else
    let afterStash :=
      if pyStarts normalized "git stash" then stashCheck subcmd else none
    match afterStash with
    | some r => r
    | none =>
      match extract_new_branch_name subcmd with
      | some nb =>
        if nb ≠ "" && ¬ jiraMatch nb then (.ask, some (proposedBranchReason nb))
        else (.allow, none)
      | none => (.allow, none)

/-- The subcommand loop of check_git_branch_workflow: thread the cwd through
cd subcommands, collect block reasons and ask reasons in order, and combine
with priority block over ask over allow. -/
def cgbwLoop (ctx : WorkflowCtx) :
    List String → Option String → List (Option String) → List (Option String) →
    Decision × Option String
  | [], _, blocks, asks =>
    match blocks with
    | r :: _ => (.block, r)
    | [] =>
      match asks with
      | r :: _ => (.ask, r)
      | [] => (.allow, none)
  | sub :: rest, cwd, blocks, asks =>
    let cdt := extract_cd_target ctx sub
    if truthyOpt cdt then cgbwLoop ctx rest cdt blocks asks
    else
      let r := _check_single_subcommand ctx sub cwd
      match r.1 with
      | .block => cgbwLoop ctx rest cwd (blocks ++ [r.2]) asks
      | .ask => cgbwLoop ctx rest cwd blocks (asks ++ [r.2])
      | .allow => cgbwLoop ctx rest cwd blocks asks

/-- check_git_branch_workflow of git_branch_workflow.py. -/
def check_git_branch_workflow (ctx : WorkflowCtx) (command : String) :
    Decision × Option String :=
  cgbwLoop ctx (extract_subcommands command) none [] []

/-- The ordered list of per-subcommand verdicts produced while threading the
cwd, skipping cd subcommands (which produce no verdict). -/
def workflowVerdicts (ctx : WorkflowCtx) :
    List String → Option String → List (Decision × Option String)
  | [], _ => []
  | sub :: rest, cwd =>
    let cdt := extract_cd_target ctx sub
    if truthyOpt cdt then workflowVerdicts ctx rest cdt
    else _check_single_subcommand ctx sub cwd :: workflowVerdicts ctx rest cwd

/-! ### git_add_block.py -/

/-- Decision values of the git-add check: Python True (hard block), False
(no objection) and the string 'ask'.  The combining loop also tests for the
string 'block', which the single-subcommand check never produces, so no
constructor is needed for it. -/
inductive AddDecision where
  | dtrue
  | dfalse
  | dask
  deriving DecidableEq, Repr

/-- Oracle context for the git-add hook.  `dryRun arg` is the stdout of
`git add --dry-run arg` (None a raised exception); `statusOf f` the stdout of
`git status --porcelain f` (None a raised exception). -/
structure AddCtx where
  dryRun : String → Option String
  statusOf : String → Option String

/-- ASCII letter. -/
def isAsciiLetter (c : Char) : Bool :=
  ('a' ≤ c && c ≤ 'z') || ('A' ≤ c && c ≤ 'Z')

/-- Match a literal pattern at the start, returning the remainder. -/
def stripLit : List Char → List Char → Option (List Char)
  | [], l => some l
  | _ :: _, [] => none
  | p :: ps, c :: rest => if c = p then stripLit ps rest else none

/-- Case-insensitive character equality (ASCII). -/
def ciEq (a b : Char) : Bool := pyLowerC a = pyLowerC b

/-- Match a pattern at the start, case-insensitively, returning the
remainder. -/
def stripCi : List Char → List Char → Option (List Char)
  | [], l => some l
  | _ :: _, [] => none
  | p :: ps, c :: rest => if ciEq p c then stripCi ps rest else none

/-- End of string or a whitespace character next — the `(\s|$)` tail used by
the dangerous-pattern alternatives.  Since every alternative body consumes a
maximal run of characters disjoint from whitespace, the backtracking search
reduces to testing the character right after the maximal run. -/
def endOrWs : List Char → Bool
  | [] => true
  | c :: _ => pyIsSpace c

/-- Alternative `-[a-zA-Z]*[Aa][a-zA-Z]*(\s|$)`: a dash, then a maximal
letter run containing the letter a (either case), ending at whitespace or
end of string. -/
def altDashA : List Char → Bool
  | '-' :: r =>
    let run := r.takeWhile isAsciiLetter
    (run.any (fun c => c = 'a' || c = 'A')) && endOrWs (r.drop run.length)
  | _ => false

/-- Alternative `--all(\s|$)` (case-insensitive). -/
def altAll (l : List Char) : Bool :=
  match stripCi "--all".data l with
  | some r => endOrWs r
  | none => false

/-- Alternative `\.(\s|$)`: a bare dot argument. -/
def altDot : List Char → Bool
  | '.' :: r => endOrWs r
  | _ => false

/-- Character class `[\.\w/]` (ASCII part of \w). -/
def isDotWordSlash (c : Char) : Bool :=
  c = '.' || isAsciiLetter c || c.isDigit || c = '_' || c = '/'

/-- Alternative `\.\./[\.\w/]*(\s|$)`: parent-directory path argument. -/
def altDotDot : List Char → Bool
  | '.' :: '.' :: '/' :: r =>
    endOrWs (r.drop (r.takeWhile isDotWordSlash).length)
  | _ => false

/-- Any of the four dangerous-pattern alternatives at this position. -/
def dangerAlt (l : List Char) : Bool :=
  altDashA l || altAll l || altDot l || altDotDot l

/-- Scan for an alternative that starts right after a whitespace character
(the `(?:.*\s+)?` prefix of the dangerous pattern: since `.*` absorbs
arbitrary characters — the inputs are whitespace-normalised single-line
strings — an alternative can start at any position preceded by
whitespace). -/
def dangerScan : Bool → List Char → Bool
  | _, [] => false
  | pw, c :: rest => (pw && dangerAlt (c :: rest)) || dangerScan (pyIsSpace c) rest

/-- dangerous_pattern of git_add_block.py:
`^git\s+add\s+(?:.*\s+)?(-[a-zA-Z]*[Aa][a-zA-Z]*(\s|$)|--all(\s|$)|\.(\s|$)|\.\./[\.\w/]*(\s|$))`
with re.IGNORECASE, applied with .search (anchored at the start by `^`).
After the case-insensitive `git`, one-or-more whitespace, `add` header, the
first following character must be whitespace (`\s+`), and some alternative
must start at a position preceded by whitespace. -/
def dangerousGitAddL (l : List Char) : Bool :=
  match stripCi "git".data l with
  | none => false
  | some r1 =>
    let ws1 := r1.takeWhile pyIsSpace
    if ws1.isEmpty then false
    else
      match stripCi "add".data (r1.drop ws1.length) with
      | none => false
      | some r2 =>
        match r2 with
        | [] => false
        | c :: _ => pyIsSpace c && dangerScan false r2

/-- Python str.endswith. -/
def pyEnds (s suf : String) : Bool := suf.data.isSuffixOf s.data

/-- directory_pattern `^git\s+add\s+(?!-)[^\s]+/$` (case-sensitive): the
whole string is `git`, whitespace, `add`, whitespace, then a single
whitespace-free token that does not start with a dash and ends with a
slash. -/
def gitAddDirMatch (l : List Char) : Bool :=
  match stripLit "git".data l with
  | none => false
  | some r1 =>
    let ws1 := r1.takeWhile pyIsSpace
    if ws1.isEmpty then false
    else
      match stripLit "add".data (r1.drop ws1.length) with
      | none => false
      | some r2 =>
        let ws2 := r2.takeWhile pyIsSpace
        if ws2.isEmpty then false
        else
          let t := r2.drop ws2.length
          match t with
          | [] => false
          | c :: _ =>
            c ≠ '-' && t.length ≥ 2 && t.all (fun d => ¬ pyIsSpace d) &&
              t.getLast? = some '/'

/-- `[a-zA-Z]*t` reachable through letters: walk the letter run looking for
the target letter. -/
def letterRunHas (t : Char) : List Char → Bool
  | [] => false
  | c :: rest =>
    if c = t then true
    else if isAsciiLetter c then letterRunHas t rest
    else false

/-- re.search of `-[a-zA-Z]*t[a-zA-Z]*` for a target letter t (the has-a-flag
and has-m-flag tests of git_add_block.py, case-sensitive). -/
def hasDashLetter (t : Char) : List Char → Bool
  | [] => false
  | c :: rest =>
    (if c = '-' then letterRunHas t rest else false) || hasDashLetter t rest

/-- re.search of `^git\s+commit\s+` (case-sensitive, anchored): `git`,
whitespace, `commit`, at least one whitespace. -/
def startsGitCommitSp (l : List Char) : Bool :=
  match stripLit "git".data l with
  | none => false
  | some r1 =>
    let ws1 := r1.takeWhile pyIsSpace
    if ws1.isEmpty then false
    else
      match stripLit "commit".data (r1.drop ws1.length) with
      | none => false
      | some r2 =>
        match r2 with
        | [] => false
        | c :: _ => pyIsSpace c

/-- Reason text for wildcard git add patterns. -/
def wildcardReason : String :=
  "BLOCKED: Wildcard patterns are not allowed in git add!\n\nDO NOT use wildcards like \x27git add *.py\x27 or \x27git add *\x27\n\nInstead, use:\n- \x27git add <specific-files>\x27 to stage specific files\n- \x27git ls-files -m \"*.py\" | xargs git add\x27 if you really need pattern matching\n\nThis restriction prevents accidentally staging unwanted files."

/-- Reason text for dangerous git add patterns. -/
def dangerousAddReason : String :=
  "BLOCKED: Dangerous git add pattern detected!\n\nDO NOT use:\n- \x27git add -A\x27, \x27git add -a\x27, \x27git add --all\x27 (adds ALL files)\n- \x27git add .\x27 (adds entire current directory)\n- \x27git add ../\x27 or similar parent directory patterns\n- \x27git add *\x27 (wildcard patterns)\n\nInstead, use:\n- \x27git add <specific-files>\x27 to stage specific files\n- \x27git add <specific-directory>/\x27 to stage a specific directory (with confirmation)\n- \x27git add -u\x27 to stage all modified/deleted files (but not untracked)\n\nThis restriction prevents accidentally staging unwanted files."

/-- Reason text for git commit -a without a message flag. -/
def commitAReason : String :=
  "Avoid \x27git commit -a\x27 without a message flag. Use \x27gcam \"message\"\x27 instead, which is an alias for \x27git commit -a -m\x27."

/-- Comma-join of the first five files plus an overflow count. -/
def fileListStr (files : List String) : String :=
  ", ".intercalate (files.take 5) ++
    (if files.length > 5 then " (+" ++ toString (files.length - 5) ++ " more)" else "")

/-- The dir_path extraction loop: the first token that follows an `add`
token and ends with a slash, with trailing slashes stripped. -/
def findDirArg : List String → Option String
  | a :: b :: rest =>
    if a = "add" && pyEnds b "/" then some (rstripSlash b)
    else findDirArg (b :: rest)
  | _ => none

/-- Classify files into (modified, new) by porcelain status; None when any
status query raises (which aborts the whole try block).  A file with empty
status is in neither list; a status whose first two characters contain `?`
marks a new file, otherwise a modified file. -/
def classifyFiles (ctx : AddCtx) : List String → Option (List String × List String)
  | [] => some ([], [])
  | f :: rest =>
    match ctx.statusOf f with
    | none => none
    | some out =>
      match classifyFiles ctx rest with
      | none => none
      | some (m, n) =>
        let st := pyStrip out
        if st ≠ "" then
          if pySub "?" ⟨st.data.take 2⟩ then some (m, f :: n)
          else some (f :: m, n)
        else some (m, n)

/-- The directory-staging branch of _check_single_git_add_command: dry-run
the directory, parse the `add '<file>'` lines, classify; only-new files are
allowed silently, modified files ask with a capped list; any exception asks
conservatively. -/
def stageDirCheck (ctx : AddCtx) (dirPath : String) : AddDecision × Option String :=
  match ctx.dryRun (dirPath ++ "/") with
  | none =>
    (.dask, some ("Staging directory " ++ dirPath ++ "/ (couldn\x27t verify file status)"))
  | some out =>
    let lines := pySplitChar '\n' (pyStrip out)
    let files := lines.filterMap (fun line =>
      if pyStarts line "add " then
        some (pyStripChar '\x27' (pyStrip ⟨line.data.drop 4⟩))
      else none)
    if files.isEmpty then (.dfalse, none)
    else
      match classifyFiles ctx files with
      | none =>
        (.dask, some ("Staging directory " ++ dirPath ++ "/ (couldn\x27t verify file status)"))
      | some (modified, _) =>
        if modified.isEmpty then (.dfalse, none)
        else
          (.dask, some ("Staging directory " ++ dirPath ++ "/ with modified files: " ++
            fileListStr modified))

/-- get_modified_files_being_staged of git_add_block.py. -/
def get_modified_files_being_staged (ctx : AddCtx) (command : String) : List String :=
  match pySplitWs command with
  | p0 :: p1 :: rest =>
    if p0 = "git" && p1 = "add" && ¬ rest.isEmpty then
      let files := rest.filter (fun p => ¬ pyStarts p "-")
      files.filter (fun f =>
        match ctx.statusOf f with
        | none => false
        | some out =>
          let st := pyStrip out
          st ≠ "" && ¬ pySub "?" ⟨st.data.take 2⟩)
    else []
  | _ => []

/-- The checks of _check_single_git_add_command that run after the wildcard,
dangerous-pattern and directory branches fall through: commit -a without -m,
then staging already-modified files. -/
def gitAddLaterChecks (ctx : AddCtx) (normalized : String) :
    AddDecision × Option String :=
  if startsGitCommitSp normalized.data && hasDashLetter 'a' normalized.data &&
      ¬ hasDashLetter 'm' normalized.data then
    (.dtrue, some commitAReason)
  else if pyStarts normalized "git add" then
    let modified := get_modified_files_being_staged ctx normalized
    if ¬ modified.isEmpty then
      (.dask, some ("Staging modified files: " ++ fileListStr modified))
    else (.dfalse, none)
  else (.dfalse, none)

/-- _check_single_git_add_command of git_add_block.py. -/
def _check_single_git_add_command (ctx : AddCtx) (command : String) :
    AddDecision × Option String :=
  let normalized := normSpaces command
  if pySub "--dry-run" normalized || "-n" ∈ pySplitWs normalized then (.dfalse, none)
  else if pySub "*" normalized && pyStarts normalized "git add" then
    (.dtrue, some wildcardReason)
  else if dangerousGitAddL normalized.data then (.dtrue, some dangerousAddReason)
  else if gitAddDirMatch normalized.data then
    match findDirArg (pySplitWs normalized) with
    | some dirPath => stageDirCheck ctx dirPath
    | none => gitAddLaterChecks ctx normalized
  else gitAddLaterChecks ctx normalized

/-- The subcommand loop of check_git_add_command: hard blocks return
immediately; the first ask is remembered and returned only after no block
was found in the remaining subcommands. -/
def cgacLoop (ctx : AddCtx) :
    List String → Option (AddDecision × Option String) → AddDecision × Option String
  | [], firstAsk =>
    match firstAsk with
    | some r => r
    | none => (.dfalse, none)
  | sub :: rest, firstAsk =>
    let r := _check_single_git_add_command ctx sub
    if r.1 = .dtrue then r
    else if r.1 = .dask && firstAsk = none then cgacLoop ctx rest (some r)
    else cgacLoop ctx rest firstAsk

/-- check_git_add_command of git_add_block.py. -/
def check_git_add_command (ctx : AddCtx) (command : String) :
    AddDecision × Option String :=
  cgacLoop ctx (extract_subcommands command) none

/-! ### rm_check.py -/

/-- Oracle context for the rm hook.  `inRepo` is is_in_git_repo() (False on
exception); `ignored p` is is_git_ignored(p) (False on exception). -/
structure RmCtx where
  inRepo : Bool
  ignored : String → Bool

/-- ASCII word character (`\w`). -/
def isWordChar (c : Char) : Bool := isAsciiLetter c || c.isDigit || c = '_'

/-- Match `rm\b` at this position: the literal rm followed by a word
boundary (end of string or a non-word character). -/
def rmWordAt : List Char → Bool
  | 'r' :: 'm' :: rest =>
    match rest with
    | [] => true
    | c :: _ => ¬ isWordChar c
  | _ => false

/-- After an opening slash, scan `\S*/rm\b`: walk non-whitespace characters;
at every slash, try `rm\b` right after it (the backtracking existential of
the greedy `\S*`); stop at whitespace. -/
def slashScan : List Char → Bool
  | [] => false
  | c :: rest =>
    (if c = '/' then rmWordAt rest else false) ||
      (if pyIsSpace c then false else slashScan rest)

/-- Match `(/\S*/)?rm\b` at this position. -/
def rmCoreAt (l : List Char) : Bool :=
  rmWordAt l ||
    (match l with
     | '/' :: rest => slashScan rest
     | _ => false)

/-- Matches of the rm regex that start at a separator character: `[;&|]`
followed by `\s*` (the core never starts with whitespace, so the greedy
whitespace run is consumed entirely) followed by `(/\S*/)?rm\b`. -/
def rmAfterSep : List Char → Bool
  | [] => false
  | c :: rest =>
    (if c = ';' || c = '&' || c = '|' then rmCoreAt (rest.dropWhile pyIsSpace)
     else false) || rmAfterSep rest

/-- re.search of `(^|[;&|]\s*)(/\S*/)?rm\b`: either the core matches at the
start of the string, or after some separator character. -/
def rmSearch (l : List Char) : Bool := rmCoreAt l || rmAfterSep l

/-- The rm-command detection of check_rm_command on the whitespace-normalised
command. -/
def isRmCommand (n : String) : Bool :=
  pyStarts n "rm " || n = "rm" || rmSearch n.data

/-- extract_rm_targets: shlex-split the command (ValueError yields no
targets), skip a leading rm token (plain or path form), skip dash-flags,
keep the rest as targets. -/
def extract_rm_targets (command : String) : List String :=
  match shlex_split command with
  | none => []
  | some [] => []
  | some (p0 :: rest) =>
    let tail := rest.filter (fun p => ! pyStarts p "-")
    if p0 = "rm" || pyEnds p0 "/rm" then tail
    else (if pyStarts p0 "-" then [] else [p0]) ++ tail

/-- Reason text for rm outside a git repository. -/
def rmOutsideRepoReason : String :=
  "rm command blocked outside of git repository.\n\nInside a git repo, rm is allowed for git-ignored files only.\nOutside git repos, use mv to move files to TRASH/ instead."

/-- Reason text for rm of non-ignored targets: names at most five targets
plus an overflow count. -/
def rmDenyReason (nonIgnored : List String) : String :=
  "rm blocked for tracked/non-ignored files: " ++ fileListStr nonIgnored ++
    "\n\nInstead of using \x27rm\x27:\n- MOVE files using `mv` to the TRASH directory in the CURRENT folder (create it if needed)\n- Add an entry in \x27TRASH-FILES.md\x27 in the current directory:\n\n```\ntest_script.py - moved to TRASH/ - temporary test script\n```\n\nNote: rm is allowed for git-ignored files (e.g., .DS_Store, node_modules/)."

/-- check_rm_command of rm_check.py: (should_block, reason). -/
def check_rm_command (ctx : RmCtx) (command : String) : Bool × Option String :=
  let normalized := normSpaces command
  if ¬ isRmCommand normalized then (false, none)
  else if ¬ ctx.inRepo then (true, some rmOutsideRepoReason)
  else
    let targets := extract_rm_targets normalized
    if targets.isEmpty then (false, none)
    else
      let nonIgnored := targets.filter (fun t => ! ctx.ignored (rstripSlash t))
      if ¬ nonIgnored.isEmpty then (true, some (rmDenyReason nonIgnored))
      else (false, none)

/-! ### kubectl_check.py and terraform_check.py -/

/-- READ_ONLY_COMMANDS of kubectl_check.py. -/
def kubectlReadOnly : List String :=
  ["get", "describe", "logs", "top", "version", "cluster-info", "config",
   "explain", "api-resources", "api-versions", "diff"]

/-- DESTRUCTIVE_COMMANDS of kubectl_check.py. -/
def kubectlDestructive : List String :=
  ["delete", "apply", "create", "replace", "patch", "edit", "scale", "rollout",
   "annotate", "label", "expose", "run", "exec", "cp"]

/-- ASK_PERMISSION_COMMANDS of kubectl_check.py. -/
def kubectlAskPermission : List String := ["port-forward", "proxy"]

/-- sorted(READ_ONLY_COMMANDS) joined with ", " (kubectl). -/
def kubectlSafeListStr : String :=
  "api-resources, api-versions, cluster-info, config, describe, diff, explain, get, logs, top, version"

/-- The verb scan of check_kubectl_command over parts[1:]: skip dash tokens;
a value-taking global flag without an equals sign also skips the following
token; the first other token is the verb. -/
def kubectlFindVerb : List String → Option String
  | [] => none
  | p :: rest =>
    if pyStarts p "-" then
      if ¬ pySub "=" p && p ∈ ["--context", "--namespace", "-n", "--kubeconfig"] then
        match rest with
        | [] => none
        | _ :: rest2 => kubectlFindVerb rest2
      else kubectlFindVerb rest
    else some p

/-- The context extraction loop: the token after the first `--context`
token that has a successor; otherwise "default". -/
def kubectlContext : List String → String
  | a :: b :: rest => if a = "--context" then b else kubectlContext (b :: rest)
  | _ => "default"

/-- Reason text for destructive kubectl commands. -/
def kubectlDestructiveReason (command context sub : String) : String :=
  "DESTRUCTIVE kubectl COMMAND DETECTED\n\nCommand: " ++ command ++ "\nContext: " ++
    context ++ "\nAction: " ++ pyUpper sub ++
    "\n\nThis command can modify or delete Kubernetes resources.\n\nThis could impact running applications and services.\nAlways verify the correct context and resources."

/-- Reason text for connection-establishing kubectl commands. -/
def kubectlAskReason (command context sub : String) : String :=
  "kubectl " ++ pyUpper sub ++ " requested\n\nCommand: " ++ command ++
    "\nContext: " ++ context ++ "\n\nThis will establish a connection to the cluster."

/-- Reason text for unknown kubectl verbs. -/
def kubectlUnknownReason (sub : String) : String :=
  "Unknown kubectl command \x27" ++ sub ++
    "\x27 blocked for safety. Known safe commands: " ++ kubectlSafeListStr

/-- check_kubectl_command of kubectl_check.py. -/
def check_kubectl_command (command : String) : Decision × Option String :=
  if ¬ pyStarts (pyStrip command) "kubectl" then (.allow, none)
  else
    match shlex_split command with
    | none => (.allow, none)
    | some parts =>
      if parts.length < 2 then (.allow, none)
      else
        match parts with
        | [] => (.allow, none)
        | _ :: rest =>
          match kubectlFindVerb rest with
          | none => (.allow, none)
          | some sub =>
            if sub = "" then (.allow, none)
            else if sub ∈ kubectlReadOnly then (.allow, none)
            else if sub ∈ kubectlDestructive then
              if parts.any (fun p => pyStarts p "--dry-run") then (.allow, none)
              else
                (.block, some (kubectlDestructiveReason command (kubectlContext parts) sub))
            else if sub ∈ kubectlAskPermission then
              (.ask, some (kubectlAskReason command (kubectlContext parts) sub))
            else (.block, some (kubectlUnknownReason sub))

/-- READ_ONLY_COMMANDS of terraform_check.py. -/
def terraformReadOnly : List String :=
  ["plan", "show", "validate", "version", "providers", "output", "state",
   "graph", "console", "fmt", "get", "init", "workspace"]

/-- DESTRUCTIVE_COMMANDS of terraform_check.py. -/
def terraformDestructive : List String :=
  ["apply", "destroy", "import", "taint", "untaint", "refresh"]

/-- sorted(READ_ONLY_COMMANDS) joined with ", " (terraform). -/
def terraformSafeListStr : String :=
  "console, fmt, get, graph, init, output, plan, providers, show, state, validate, version, workspace"

/-- The verb scan of check_terraform_command over parts[1:] (same shape as
kubectl, with the terraform value-taking flags). -/
def terraformFindVerb : List String → Option String
  | [] => none
  | p :: rest =>
    if pyStarts p "-" then
      if ¬ pySub "=" p && p ∈ ["-chdir", "-var", "-var-file"] then
        match rest with
        | [] => none
        | _ :: rest2 => terraformFindVerb rest2
      else terraformFindVerb rest
    else some p

/-- Reason text for destructive terraform commands (the workspace is always
reported as "default" by the source). -/
def terraformDestructiveReason (command sub : String) : String :=
  "DESTRUCTIVE terraform COMMAND DETECTED\n\nCommand: " ++ command ++
    "\nWorkspace: default\nAction: " ++ pyUpper sub ++
    "\n\nThis command can modify or destroy infrastructure resources.\n\nThis could impact running services and infrastructure.\nAlways verify the correct workspace and resources with \x27terraform plan\x27 first."

/-- Reason text for unknown terraform verbs. -/
def terraformUnknownReason (sub : String) : String :=
  "Unknown terraform command \x27" ++ sub ++
    "\x27 blocked for safety. Known safe commands: " ++ terraformSafeListStr

/-- check_terraform_command of terraform_check.py. -/
def check_terraform_command (command : String) : Decision × Option String :=
  if ¬ (pyStarts (pyStrip command) "terraform" || pyStarts (pyStrip command) "tf ") then
    (.allow, none)
  else
    match shlex_split command with
    | none => (.allow, none)
    | some parts =>
      if parts.length < 2 then (.allow, none)
      else
        match parts with
        | [] => (.allow, none)
        | _ :: rest =>
          match terraformFindVerb rest with
          | none => (.allow, none)
          | some sub =>
            if sub = "" then (.allow, none)
            else if sub ∈ terraformReadOnly then (.allow, none)
            else if sub ∈ terraformDestructive then
              (.block, some (terraformDestructiveReason command sub))
            else (.block, some (terraformUnknownReason sub))

/-! ### env_read_check.py, env_grep_check.py, env_bash_check.py -/

/-- SAFE_SUFFIXES shared by the env checks. -/
def safeSuffixes : List String := [".example", ".template", ".sample", ".dist"]

/-- Reason text of env_read_check (parameterised by the lower-cased
basename, which the source interpolates). -/
def envReadReason (basename : String) : String :=
  "Blocked: Reading " ++ basename ++
    " files is not allowed to prevent exposure of secrets. Use env-safe CLI to safely inspect environment variables: env-safe list, env-safe check KEY, env-safe validate"

/-- check_env_read of env_read_check.py. -/
def check_env_read (file_path : String) : Bool × Option String :=
  if file_path = "" then (false, none)
  else
    let basename := pyLower (pyBasename file_path)
    if ¬ pyStarts basename ".env" then (false, none)
    else if basename = ".env" then (true, some (envReadReason ".env"))
    else if pyStarts basename ".env." then
      let suffix : String := ⟨basename.data.drop 4⟩
      if suffix ∈ safeSuffixes then (false, none)
      else (true, some (envReadReason basename))
    else (false, none)

/-- _ENV_GLOB_PATTERNS of env_grep_check.py. -/
def envGlobPatterns : List String := [".env*", "*.env", ".env.*"]

/-- BLOCK_REASON of env_grep_check.py. -/
def envGrepBlockReason : String :=
  "Blocked: Searching .env files via Grep is not allowed to prevent exposure of secrets. Use env-safe CLI to safely inspect environment variables: env-safe list, env-safe check KEY, env-safe validate"

/-- _is_env_file of env_grep_check.py. -/
def _is_env_file (basename : String) : Bool :=
  let b := pyLower basename
  if ¬ pyStarts b ".env" then false
  else if b = ".env" then true
  else if pyStarts b ".env." then
    decide (¬ (⟨b.data.drop 4⟩ : String) ∈ safeSuffixes)
  else false

/-- Strip every leading recursive-directory marker from a glob pattern. -/
def stripRecursive : List Char → List Char
  | '*' :: '*' :: '/' :: rest => stripRecursive rest
  | l => l

/-- _glob_targets_env of env_grep_check.py. -/
def _glob_targets_env (glob_pattern : String) : Bool :=
  let pattern := pyLower (pyStrip glob_pattern)
  if pattern ∈ envGlobPatterns then true
  else
    let stripped : String := ⟨stripRecursive pattern.data⟩
    ((if stripped ≠ pattern then
        (stripped ∈ envGlobPatterns) || _is_env_file (pyBasename stripped)
      else false) ||
     (let basename := pyBasename pattern
      _is_env_file basename ||
        (pyStarts basename ".env" &&
          basename.data.any (fun c => c = '*' || c = '?' || c = '['))))

/-- check_env_grep of env_grep_check.py (string inputs; the source coerces
non-string inputs to the empty string before this logic runs). -/
def check_env_grep (path : String) (glob_pattern : String) : Bool × Option String :=
  if path ≠ "" && pyBasename path ≠ "" && _is_env_file (pyBasename path) then
    (true, some envGrepBlockReason)
  else if glob_pattern ≠ "" && _glob_targets_env glob_pattern then
    (true, some envGrepBlockReason)
  else (false, none)

/-- CONTENT_READING_COMMANDS of env_bash_check.py. -/
def contentReadingCommands : List String :=
  ["cat", "less", "more", "head", "tail", "grep", "egrep", "fgrep", "rg", "ag",
   "ack", "vim", "vi", "nvim", "nano", "emacs", "code", "subl", "bat", "sed",
   "awk", "perl", "python", "ruby", "node", "source", "xargs", "tee", "sort",
   "uniq", "cut", "paste", "diff", "wc"]

/-- SAFE_COMMANDS of env_bash_check.py. -/
def envSafeCommands : List String :=
  ["ls", "mv", "cp", "rm", "touch", "chmod", "chown", "stat", "file", "mkdir",
   "git", "echo", "printf"]

/-- Boundary characters of ENV_FILE_PATTERN: slash, whitespace, double or
single quote. -/
def envBoundary (c : Char) : Bool :=
  c = '/' || pyIsSpace c || c = '"' || c = '\x27'

/-- Word-dash character class `[a-zA-Z0-9_-]` of the env suffix. -/
def envSuffixChar (c : Char) : Bool :=
  isAsciiLetter c || c.isDigit || c = '_' || c = '-'

/-- Case-insensitive prefix test on character lists. -/
def startsCi (pat : String) (l : List Char) : Bool :=
  match stripCi pat.data l with
  | some _ => true
  | none => false

/-- Match the body of ENV_FILE_PATTERN at this position: `.env`, optionally
a dot followed by a name (negative lookahead refusing the safe suffixes),
ending at a boundary character or the end of the string.  The suffix name
class excludes the boundary characters, so the greedy run is maximal. -/
def envPatBody (l : List Char) : Bool :=
  match stripCi ".env".data l with
  | none => false
  | some rest =>
    (match rest with
     | [] => true
     | c :: _ => envBoundary c) ||
    (match rest with
     | '.' :: rest2 =>
       if startsCi "example" rest2 || startsCi "template" rest2 ||
           startsCi "sample" rest2 || startsCi "dist" rest2 then false
       else
         let run := rest2.takeWhile envSuffixChar
         ¬ run.isEmpty &&
           (match rest2.drop run.length with
            | [] => true
            | c :: _ => envBoundary c)
     | _ => false)

/-- re.search of ENV_FILE_PATTERN: the body must match at the start of the
string or right after a boundary character. -/
def envPatScan : Bool → List Char → Bool
  | pb, [] => pb && envPatBody []
  | pb, c :: rest => (pb && envPatBody (c :: rest)) || envPatScan (envBoundary c) rest

/-- ENV_FILE_PATTERN.search on a string. -/
def envPatSearch (s : String) : Bool := envPatScan true s.data

/-- FIRST_COMMAND_PATTERN `^\s*(?:sudo\s+)?(\S+)`: skip leading whitespace
and an optional sudo token (kept when nothing follows it), then take the
first whitespace-free token; None when no token exists. -/
def firstCommand (s : String) : Option String :=
  let l := s.data.dropWhile pyIsSpace
  let afterSudo :=
    match stripLit "sudo".data l with
    | some (c :: rest2) =>
      if pyIsSpace c then
        let tok := (rest2.dropWhile pyIsSpace).takeWhile (fun d => ¬ pyIsSpace d)
        if tok.isEmpty then none else some tok
      else none
    | _ => none
  match afterSudo with
  | some tok => some ⟨tok⟩
  | none =>
    let tok := l.takeWhile (fun d => ¬ pyIsSpace d)
    if tok.isEmpty then none else some ⟨tok⟩

/-- Reason text for commands that would expose .env contents. -/
def envBashExposeReason : String :=
  "Blocked: Command would expose .env file contents. Use env-safe CLI to safely inspect environment variables."

/-- Reason text for dot-sourcing a .env file. -/
def envBashSourceReason : String :=
  "Blocked: Sourcing .env file would expose sensitive environment variables. Use env-safe CLI to safely inspect environment variables."

/-- The pipeline scan of check_env_bash: any pipe segment whose leading
token is a content-reading command and which itself mentions a .env file. -/
def envBashPipeScan (command : String) : Bool :=
  (pySplitChar '|' command).any (fun part0 =>
    let part := pyStrip part0
    if part = "" then false
    else
      match firstCommand part with
      | none => false
      | some tok =>
        pyLower tok ∈ contentReadingCommands && envPatSearch part)

/-- check_env_bash of env_bash_check.py. -/
def check_env_bash (command : String) : Bool × Option String :=
  if command = "" then (false, none)
  else if ¬ envPatSearch command then (false, none)
  else if pyStarts (pyStrip command) "git " then
    if pySub "-m " command || pySub "--message" command then (false, none)
    else if ["git add", "git rm", "git mv", "git status", "git diff"].any
        (fun c => pySub c command) then (false, none)
    else if ["git show", "git cat-file"].any (fun c => pySub c command) then
      (true, some envBashExposeReason)
    else (false, none)
  else
    let viaFirst :=
      match firstCommand command with
      | none => none
      | some tok =>
        let first_cmd := pyLower tok
        if first_cmd ∈ envSafeCommands then some ((false, none) : Bool × Option String)
        else if first_cmd = "." then some (true, some envBashSourceReason)
        else if first_cmd ∈ contentReadingCommands then
          some (true, some envBashExposeReason)
        else none
    match viaFirst with
    | some r => r
    | none =>
      if envBashPipeScan command then (true, some envBashExposeReason)
      else (false, none)

/-! ### git_checkout_safety.py -/

/-- Oracle context for the checkout hook.  `statusPorcelain` models
`git status --porcelain`: `.error msg` a raised exception whose message is
interpolated into the reason, `.ok out` the stdout.  `diffExc` models an
exception raised by the two informational `git diff` calls (whose output is
discarded); they only run when the status output is nonempty. -/
structure CheckoutCtx where
  statusPorcelain : Except String String
  diffExc : Option String

/-- Tail `(-f|--force)\b` of the force-checkout pattern. -/
def p1Tail (l : List Char) : Bool :=
  (match stripLit "-f".data l with
   | some r =>
     match r with
     | [] => true
     | c :: _ => ¬ isWordChar c
   | none => false) ||
  (match stripLit "--force".data l with
   | some r =>
     match r with
     | [] => true
     | c :: _ => ¬ isWordChar c
   | none => false)

/-- Tail `\.` of the bare-dot checkout pattern. -/
def p2Tail : List Char → Bool
  | '.' :: _ => true
  | _ => false

/-- Match `git\s+checkout\s+` then a tail starting right after the maximal
whitespace run (valid for tails that begin with a non-whitespace
character). -/
def gcoAt (tailMatch : List Char → Bool) (l : List Char) : Bool :=
  match stripLit "git".data l with
  | none => false
  | some r1 =>
    let ws1 := r1.takeWhile pyIsSpace
    if ws1.isEmpty then false
    else
      match stripLit "checkout".data (r1.drop ws1.length) with
      | none => false
      | some r2 =>
        let ws2 := r2.takeWhile pyIsSpace
        if ws2.isEmpty then false else tailMatch (r2.drop ws2.length)

/-- Match `git\s+checkout` then hand the raw remainder to a tail matcher
that accounts for its own leading whitespace (the `\s+.*\s+--` forms). -/
def gcoAt34 (tailMatch : List Char → Bool) (l : List Char) : Bool :=
  match stripLit "git".data l with
  | none => false
  | some r1 =>
    let ws1 := r1.takeWhile pyIsSpace
    if ws1.isEmpty then false
    else
      match stripLit "checkout".data (r1.drop ws1.length) with
      | none => false
      | some r2 => tailMatch r2

/-- Conditions on the text between `checkout` and a `--` occurrence for the
pattern `\s+.*\s+--`: the gap must start and end with whitespace; an all-
whitespace gap needs length two (one for each `\s+`, `.*` empty); otherwise
the text strictly between the maximal whitespace runs must not contain a
newline (which `.` cannot match).  `gapRev` is the gap in reverse. -/
def gapOk (gapRev : List Char) : Bool :=
  match gapRev with
  | [] => false
  | last :: _ =>
    pyIsSpace last &&
      (let gap := gapRev.reverse
       match gap with
       | [] => false
       | first :: _ =>
         pyIsSpace first &&
           (if gap.all pyIsSpace then gap.length ≥ 2
            else
              let a := (gap.takeWhile pyIsSpace).length
              let b := (gap.reverse.takeWhile pyIsSpace).length
              ((gap.drop a).take (gap.length - b - a)).all (fun c => c ≠ '\n')))

/-- After the `--`: `\s+` (and then a literal dot when `needDot`). -/
def afterDashOk (needDot : Bool) (after : List Char) : Bool :=
  let wsr := after.takeWhile pyIsSpace
  ¬ wsr.isEmpty &&
    (if needDot then
      match after.drop wsr.length with
      | '.' :: _ => true
      | _ => false
     else true)

/-- Scan the remainder after `checkout` for a `--` occurrence satisfying the
gap and after conditions (every position is tried, matching the regex
backtracking). -/
def ddScan (needDot : Bool) : List Char → List Char → Bool
  | _, [] => false
  | gapRev, c :: rest =>
    (if c = '-' then
      match rest with
      | '-' :: after => gapOk gapRev && afterDashOk needDot after
      | _ => false
     else false) || ddScan needDot (c :: gapRev) rest

/-- re.search with a leading `\b` before `git`: the body may match at the
start of the string or at any position whose previous character is a
non-word character. -/
def gcoSearch (bodyAt : List Char → Bool) : Bool → List Char → Bool
  | _, [] => false
  | pw, c :: rest => ((¬ pw) && bodyAt (c :: rest)) || gcoSearch bodyAt (isWordChar c) rest

/-- Pattern `\bgit\s+checkout\s+(-f|--force)\b`. -/
def checkoutP1 (s : String) : Bool := gcoSearch (gcoAt p1Tail) false s.data

/-- Pattern `\bgit\s+checkout\s+\.`. -/
def checkoutP2 (s : String) : Bool := gcoSearch (gcoAt p2Tail) false s.data

/-- Pattern `\bgit\s+checkout\s+.*\s+--\s+\.`. -/
def checkoutP3 (s : String) : Bool := gcoSearch (gcoAt34 (ddScan true [])) false s.data

/-- Pattern `\bgit\s+checkout\s+.*\s+--\s+`. -/
def checkoutP4 (s : String) : Bool := gcoSearch (gcoAt34 (ddScan false [])) false s.data

/-- The (pattern, message) loop of _check_single_git_checkout_command:
message of the first matching dangerous pattern. -/
def checkoutDangerMessage (command : String) : Option String :=
  if checkoutP1 command then
    some "\x27git checkout -f\x27 FORCES checkout and DISCARDS all uncommitted changes!"
  else if checkoutP2 command then
    some "\x27git checkout .\x27 will DISCARD ALL changes in current directory!"
  else if checkoutP3 command then
    some "This will DISCARD ALL changes in current directory!"
  else if checkoutP4 command then
    some "This will overwrite your local file with version from another branch/commit!"
  else none

/-- Reason wrapper around a dangerous-pattern message. -/
def checkoutDangerReason (msg : String) : String :=
  "DANGEROUS COMMAND DETECTED!\n\n" ++ msg ++
    "\n\nThis command will destroy uncommitted work without warning.\n\nSafer alternatives:\n- Use \x27git stash\x27 to save changes temporarily\n- Use \x27git diff\x27 to see what would be lost\n- Use \x27git restore\x27 for clearer syntax"

/-- Reason for a failed repository-status query. -/
def checkoutStatusFailReason (e : String) : String :=
  "Could not verify repository status: " ++ e ++
    "\nPlease manually check \x27git status\x27 before proceeding."

/-- The uncommitted-changes warning: count, first ten files with overflow,
remediation options, and an extra danger line for dot-checkout text. -/
def checkoutWarning (command : String) (files : List String) : String :=
  let num := files.length
  "WARNING: You have " ++ toString num ++ " uncommitted change(s) that may be lost!\n\n" ++
    (if ¬ files.isEmpty then
      "Modified files:\n" ++ String.join ((files.take 10).map (fun f => "  " ++ f ++ "\n")) ++
        (if num > 10 then "  ... and " ++ toString (num - 10) ++ " more\n" else "")
     else "") ++
    "\nOptions:\n1. Stash changes: git stash\n2. Commit changes: git commit -am \x27your message\x27\n3. Discard changes: git restore <files>\n4. Use \x27git switch\x27 instead for safer branch switching\n" ++
    (if pySub "checkout ." command || pySub "checkout -- ." command then
      "\nDANGER: \x27git checkout .\x27 will DISCARD ALL local changes!"
     else "")

/-- _check_single_git_checkout_command of git_checkout_safety.py. -/
def _check_single_git_checkout_command (ctx : CheckoutCtx) (command : String) :
    Bool × Option String :=
  if ¬ pyStarts (pyStrip command) "git checkout" then (false, none)
  else if pySub "-b" command || pySub "--help" command || pySub "-h" command then
    (false, none)
  else
    match checkoutDangerMessage command with
    | some msg => (true, some (checkoutDangerReason msg))
    | none =>
      match ctx.statusPorcelain with
      | .error e => (true, some (checkoutStatusFailReason e))
      | .ok out =>
        if pyStrip out ≠ "" then
          match ctx.diffExc with
          | some e => (true, some (checkoutStatusFailReason e))
          | none =>
            let all_changes := pySplitChar '\n' (pyStrip out)
            let modified_files := all_changes.filter (fun f => pyStrip f ≠ "")
            (true, some (checkoutWarning command modified_files))
        else (false, none)

/-- check_git_checkout_command of git_checkout_safety.py: first blocking
subcommand wins. -/
def check_git_checkout_command (ctx : CheckoutCtx) (command : String) :
    Bool × Option String :=
  match (extract_subcommands command).find?
      (fun sub => (_check_single_git_checkout_command ctx sub).1) with
  | some sub => _check_single_git_checkout_command ctx sub
  | none => (false, none)

/-! ### file_length_check.py -/

/-- Flattened tool-call data of the file-length hook: tool_name plus the
tool_input fields, each defaulting to the empty value exactly as the
source's dict.get calls do. -/
structure FileToolData where
  tool_name : String
  file_path : String
  content : String
  old_string : String
  new_string : String
  replace_all : Bool

/-- SOURCE_CODE_EXTENSIONS of file_length_check.py. -/
def sourceCodeExtensions : List String :=
  [".py", ".tsx", ".ts", ".jsx", ".js", ".rs", ".c", ".cpp", ".cc", ".cxx",
   ".h", ".hpp", ".go", ".java", ".kt", ".swift", ".rb", ".php", ".cs",
   ".scala", ".m", ".mm", ".r", ".jl"]

/-- pathlib Path(...).suffix: the part of the final component from its last
dot, provided that dot is neither the first nor the last character. -/
def pathSuffix (file_path : String) : String :=
  let name := (pyBasename file_path).data
  match name.reverse.findIdx? (fun c => c = '.') with
  | none => ""
  | some r =>
    if 1 ≤ r ∧ r + 2 ≤ name.length then ⟨(name.reverse.take (r + 1)).reverse⟩
    else ""

/-- is_source_code_file of file_length_check.py. -/
def is_source_code_file (file_path : String) : Bool :=
  if file_path = "" then false
  else pyLower (pathSuffix file_path) ∈ sourceCodeExtensions

/-- Line-boundary characters of Python str.splitlines. -/
def isLineBreak (c : Char) : Bool :=
  c = '\n' || c = '\r' || c = '\x0b' || c = '\x0c' || c = '\x1c' ||
    c = '\x1d' || c = '\x1e' || c = '\x85' || c = '\u2028' || c = '\u2029'

/-- len(splitlines()): walk through the characters; `inLine` records whether a
line segment is open; every boundary (with \r\n as one boundary) closes one
line, and an open segment at the end counts as a line. -/
def slGo : Bool → List Char → Nat
  | inLine, [] => if inLine then 1 else 0
  | _, '\r' :: '\n' :: rest => 1 + slGo false rest
  | _, c :: rest => if isLineBreak c then 1 + slGo false rest else slGo true rest

/-- count_lines_in_content of file_length_check.py. -/
def count_lines_in_content (content : String) : Nat :=
  if content = "" then 0 else slGo false content.data

/-- get_resulting_line_count of file_length_check.py.  `fs path` models the
on-disk file: `none` means the file does not exist; `some (.error ())` a
read failure (treated as zero lines); `some (.ok current)` the current
content. -/
def get_resulting_line_count (fs : String → Option (Except Unit String))
    (tool_name file_path : String) (d : FileToolData) : Nat :=
  if tool_name = "Write" then count_lines_in_content d.content
  else if tool_name = "Edit" then
    match fs file_path with
    | none => 0
    | some (.error _) => 0
    | some (.ok current) =>
      let result :=
        if d.replace_all then pyReplace current d.old_string d.new_string none
        else pyReplace current d.old_string d.new_string (some 1)
      count_lines_in_content result
  else 0

/-- The over-limit reason text (MAX_FILE_LINES = 10000 interpolated). -/
def fileLengthReason (file_path : String) (n : Nat) : String :=
  "\n**File length limit exceeded (" ++ toString n ++
    " lines > 10000 lines).**\n\nThe resulting file `" ++ file_path ++
    "` would be " ++ toString n ++
    " lines long.\n\nTo maintain code quality and modularity, files should be kept under 10000 lines.\n\n**Please pause and ask the user:**\n\"This operation would create a file with " ++
    toString n ++
    " lines. Would you like me to:\n1. Refactor the code into smaller, more modular files?\n2. Proceed with the large file anyway?\"\n\n**Only retry this operation if the user approves proceeding with the large file.**\nOtherwise, work on refactoring the code into smaller modules.\n"

/-- check_file_length_limit of file_length_check.py.  The sentinel flag file
is the single piece of mutable state: it is passed in as `flag` and the new
flag state is returned alongside the (should_block, reason) result (touch on
first denial, unlink on the allowed retry). -/
def check_file_length_limit (fs : String → Option (Except Unit String))
    (flag : Bool) (d : FileToolData) : (Bool × Option String) × Bool :=
  if ¬ (d.tool_name = "Edit" ∨ d.tool_name = "Write") then ((false, none), flag)
  else if ¬ is_source_code_file d.file_path then ((false, none), flag)
  else
    let n := get_resulting_line_count fs d.tool_name d.file_path d
    if n ≤ 10000 then ((false, none), flag)
    else if flag then ((false, none), false)
    else ((true, some (fileLengthReason d.file_path n)), true)

/-- An n-line content "x\nx\n...x\n" used by the over-limit witness. -/
def bigChars : Nat → List Char
  | 0 => []
  | n + 1 => 'x' :: '\n' :: bigChars n

/-- The witness tool call: a Write of 10001 lines to a Python file. -/
def bigWrite : FileToolData :=
  ⟨"Write", "big.py", ⟨bigChars 10001⟩, "", "", false⟩

/-- A filesystem with no files (irrelevant for Write). -/
def emptyFs : String → Option (Except Unit String) := fun _ => none

/-! ### Concrete oracle contexts used by witnesses -/

/-- Checkout context with uncommitted changes in the working tree. -/
def coCtxDirty : CheckoutCtx := ⟨.ok " M foo.py\n M bar.py", none⟩

/-- Outside a git repository. -/
def rmCtxOut : RmCtx := ⟨false, fun _ => false⟩

/-- Inside a repository, nothing ignored. -/
def rmCtxInNone : RmCtx := ⟨true, fun _ => false⟩

/-- Inside a repository, everything ignored. -/
def rmCtxInAll : RmCtx := ⟨true, fun _ => true⟩

/-- Branch oracle answering `main`. -/
def wfCtxMain : WorkflowCtx := ⟨fun _ => some (0, "main\n"), fun s => s⟩

/-- Branch oracle answering a compliant Jira branch. -/
def wfCtxFeat : WorkflowCtx := ⟨fun _ => some (0, "PROJ-123-x\n"), fun s => s⟩

/-- Branch oracle answering a branch without the Jira pattern. -/
def wfCtxBad : WorkflowCtx := ⟨fun _ => some (0, "my-feature"), fun s => s⟩

/-- Branch oracle that raises (timeout / missing binary / non-repo). -/
def wfCtxNone : WorkflowCtx := ⟨fun _ => none, fun s => s⟩

/-- Branch oracle whose git call fails with a nonzero return code. -/
def wfCtxFail : WorkflowCtx := ⟨fun _ => some (128, "fatal: not a git repository"), fun s => s⟩

/-! ## Theorems -/

/-- Every nonempty result of splitting keeps at least one piece. -/
theorem splitSepsL_ne_nil (l : List Char) : splitSepsL l ≠ [] := by
  induction l using splitSepsL.induct with
  | case1 => simp [splitSepsL]
  | case2 rest ih => simp [splitSepsL]
  | case3 rest ih => simp [splitSepsL]
  | case4 rest ih => simp [splitSepsL]
  | case5 c rest h1 h2 h3 heq ih => simp [splitSepsL, heq]
  | case6 c rest h1 h2 h3 p ps heq ih => simp [splitSepsL, heq]

/-- Splitting a separator-free list yields the list itself as the only piece. -/
theorem splitSepsL_noSep (l : List Char) (h : noSepL l = true) :
    splitSepsL l = [l] := by
  induction l using noSepL.induct with
  | case1 => rfl
  | case2 rest => simp [noSepL] at h
  | case3 rest => simp [noSepL] at h
  | case4 rest => simp [noSepL] at h
  | case5 c rest h1 h2 h3 ih =>
    rw [noSepL] at h
    case x_1 => exact h1
    case x_2 => exact h2
    case x_3 => exact h3
    rw [splitSepsL, ih h]
    case x_1 => exact h1
    case x_2 => exact h2
    case x_3 => exact h3

/-- Splitting distributes over a semicolon separator when the left side is
separator-free. -/
theorem splitSepsL_append_semi (xs ys : List Char) (h : noSepL xs = true) :
    splitSepsL (xs ++ ';' :: ys) = xs :: splitSepsL ys := by
  induction xs using noSepL.induct with
  | case1 => simp [splitSepsL]
  | case2 rest => simp [noSepL] at h
  | case3 rest => simp [noSepL] at h
  | case4 rest => simp [noSepL] at h
  | case5 c rest h1 h2 h3 ih =>
    rw [noSepL] at h
    case x_1 => exact h1
    case x_2 => exact h2
    case x_3 => exact h3
    have ihr := ih h
    rw [List.cons_append, splitSepsL, ihr]
    case x_1 =>
      intro rest2 hc hr
      rcases rest with _ | ⟨d, rest3⟩
      · simp at hr
      · simp at hr
        exact h1 rest3 hc (by simp [hr.1, hr.2])
    case x_2 =>
      intro rest2 hc hr
      rcases rest with _ | ⟨d, rest3⟩
      · simp at hr
      · simp at hr
        exact h2 rest3 hc (by simp [hr.1, hr.2])
    case x_3 => exact h3

/-- dropWhile never lengthens a list. -/
theorem length_dropWhile_le (p : Char → Bool) (l : List Char) :
    (l.dropWhile p).length ≤ l.length := by
  induction l with
  | nil => simp
  | cons c rest ih =>
    rw [List.dropWhile_cons]
    by_cases h : p c
    · simp only [if_pos h]
      calc (rest.dropWhile p).length ≤ rest.length := ih
        _ ≤ (c :: rest).length := by simp
    · simp [if_neg h]

/-- Stripping is idempotent on character lists. -/
theorem pyStripL_idem (l : List Char) : pyStripL (pyStripL l) = pyStripL l := by
  have hdef : ∀ x : List Char,
      pyStripL x = List.rdropWhile pyIsSpace (x.dropWhile pyIsSpace) := fun _ => rfl
  rw [hdef, hdef]
  have hm2 : (l.dropWhile pyIsSpace).dropWhile pyIsSpace = l.dropWhile pyIsSpace :=
    List.dropWhile_idempotent pyIsSpace l
  generalize hme : l.dropWhile pyIsSpace = m at hm2
  have hinner :
      (List.rdropWhile pyIsSpace m).dropWhile pyIsSpace = List.rdropWhile pyIsSpace m := by
    have hpre : List.rdropWhile pyIsSpace m <+: m := List.rdropWhile_prefix pyIsSpace m
    rcases hx : List.rdropWhile pyIsSpace m with _ | ⟨c, x2⟩
    · rfl
    · rw [hx] at hpre
      obtain ⟨t, ht⟩ := hpre
      have hmc : m = c :: (x2 ++ t) := by rw [← ht]; simp
      have hc : pyIsSpace c = false := by
        by_contra hcc
        simp only [Bool.not_eq_false] at hcc
        rw [hmc, List.dropWhile_cons, if_pos hcc] at hm2
        have hlen := congrArg List.length hm2
        have hle := length_dropWhile_le pyIsSpace (x2 ++ t)
        simp at hlen hle
        omega
      rw [List.dropWhile_cons, if_neg (by simp [hc])]
  rw [hinner, List.rdropWhile_idempotent]

/-- Stripping is idempotent on strings. -/
theorem pyStrip_idem (s : String) : pyStrip (pyStrip s) = pyStrip s := by
  unfold pyStrip
  rw [pyStripL_idem]

/-- Rebuilding a string from its character data is the identity (for strip). -/
theorem pyStrip_mk_data (s : String) : pyStrip ⟨s.data⟩ = pyStrip s := rfl

/-- Stripping the empty string gives the empty string. -/
theorem pyStrip_nil : pyStrip ⟨[]⟩ = "" := rfl

/-- Stripping the literal empty string gives the empty string. -/
theorem pyStrip_empty : pyStrip "" = "" := rfl

/-- On a separator-free command the splitter returns the stripped command
(or nothing when it strips to empty). -/
theorem extract_noSep (command : String) (h : noSepL command.data = true) :
    extract_subcommands command =
      if pyStrip command = "" then [] else [pyStrip command] := by
  unfold extract_subcommands
  by_cases hc : command = ""
  · subst hc
    simp [pyStrip, pyStripL]
  · rw [if_neg hc, splitSepsL_noSep _ h]
    by_cases hstrip : pyStrip command = ""
    · simp [List.filter_cons, pyStrip_mk_data, hstrip]
    · simp [List.filter_cons, pyStrip_mk_data, hstrip]

/-- The splitter distributes over a semicolon: subcommands of the two halves
are produced in order. -/
theorem extract_append_semi (a b : String) (h : noSepL a.data = true) :
    extract_subcommands (a ++ ";" ++ b) =
      extract_subcommands a ++ extract_subcommands b := by
  have hdata : (a ++ ";" ++ b).data = a.data ++ ';' :: b.data := by
    simp [String.data_append]
  have hne : (a ++ ";" ++ b) ≠ "" := by
    intro he
    have := congrArg String.data he
    rw [hdata] at this
    simp at this
  rw [extract_noSep a h]
  unfold extract_subcommands
  rw [if_neg hne, hdata, splitSepsL_append_semi _ _ h]
  by_cases hb : b = ""
  · subst hb
    by_cases hstrip : pyStrip a = ""
    · simp [splitSepsL, List.filter_cons, pyStrip_mk_data, pyStrip_nil, pyStrip_empty, hstrip]
    · simp [splitSepsL, List.filter_cons, pyStrip_mk_data, pyStrip_nil, pyStrip_empty, hstrip]
  · rw [if_neg hb]
    by_cases hstrip : pyStrip a = ""
    · simp [List.filter_cons, pyStrip_mk_data, hstrip]
    · simp [List.filter_cons, pyStrip_mk_data, hstrip]

/-- find? is the head of filter. -/
theorem find?_eq_head?_filter {α : Type} (p : α → Bool) (l : List α) :
    l.find? p = (l.filter p).head? := by
  induction l with
  | nil => rfl
  | cons c rest ih =>
    by_cases h : p c
    · rw [List.find?_cons_of_pos _ h, List.filter_cons_of_pos h]
      rfl
    · rw [List.find?_cons_of_neg _ h, List.filter_cons_of_neg h, ih]

/-- The loop of check_git_branch_workflow combines the pending accumulators
with the verdicts of the remaining subcommands: the first block reason wins,
else the first ask reason, else allow. -/
theorem cgbwLoop_spec (ctx : WorkflowCtx) (subs : List String) :
    ∀ cwd blocks asks,
      cgbwLoop ctx subs cwd blocks asks =
        (match blocks ++
            ((workflowVerdicts ctx subs cwd).filter
              (fun v => v.1 == Decision.block)).map Prod.snd with
         | r :: _ => (Decision.block, r)
         | [] =>
           match asks ++
               ((workflowVerdicts ctx subs cwd).filter
                 (fun v => v.1 == Decision.ask)).map Prod.snd with
           | r :: _ => (Decision.ask, r)
           | [] => (Decision.allow, none)) := by
  induction subs with
  | nil =>
    intro cwd blocks asks
    simp only [cgbwLoop, workflowVerdicts, List.filter_nil, List.map_nil,
      List.append_nil]
  | cons sub rest ih =>
    intro cwd blocks asks
    simp only [cgbwLoop, workflowVerdicts]
    by_cases hcd : truthyOpt (extract_cd_target ctx sub) = true
    · simp only [hcd, if_true]
      exact ih _ _ _
    · simp only [Bool.not_eq_true] at hcd
      simp only [hcd, Bool.false_eq_true, if_false]
      rcases hr : (_check_single_subcommand ctx sub cwd).1 with _ | _ | _ <;>
        simp only [hr, List.filter_cons] <;>
        rw [ih] <;>
        simp [List.append_assoc]

/-- check_git_branch_workflow equals the find?-characterisation: first Deny
verdict, else first Ask verdict, else Allow. -/
theorem check_git_branch_workflow_combination (ctx : WorkflowCtx) (command : String) :
    check_git_branch_workflow ctx command =
      (match (workflowVerdicts ctx (extract_subcommands command) none).find?
          (fun v => v.1 == Decision.block) with
       | some v => (Decision.block, v.2)
       | none =>
         match (workflowVerdicts ctx (extract_subcommands command) none).find?
             (fun v => v.1 == Decision.ask) with
         | some v => (Decision.ask, v.2)
         | none => (Decision.allow, none)) := by
  rw [check_git_branch_workflow, cgbwLoop_spec]
  rw [find?_eq_head?_filter, find?_eq_head?_filter]
  rcases hb : (workflowVerdicts ctx (extract_subcommands command) none).filter
      (fun v => v.1 == Decision.block) with _ | ⟨vb, rb⟩
  · rw [hb]
    rcases ha : (workflowVerdicts ctx (extract_subcommands command) none).filter
        (fun v => v.1 == Decision.ask) with _ | ⟨va, ra⟩
    · rw [ha]
      simp
    · rw [ha]
      simp
  · rw [hb]
    simp

/-- The loop of check_git_add_command: the first hard block wins, else the
pending first ask, else the first ask among the remaining subcommands, else
no objection. -/
theorem cgacLoop_spec (ctx : AddCtx) (subs : List String) :
    ∀ firstAsk,
      cgacLoop ctx subs firstAsk =
        (match (subs.map (_check_single_git_add_command ctx)).find?
            (fun v => v.1 == AddDecision.dtrue) with
         | some v => v
         | none =>
           match firstAsk with
           | some r => r
           | none =>
             match (subs.map (_check_single_git_add_command ctx)).find?
                 (fun v => v.1 == AddDecision.dask) with
             | some v => v
             | none => (AddDecision.dfalse, none)) := by
  induction subs with
  | nil =>
    intro firstAsk
    rcases firstAsk with _ | r <;> rfl
  | cons sub rest ih =>
    intro firstAsk
    simp only [cgacLoop, List.map_cons, List.find?_cons]
    have b1 : (AddDecision.dtrue == AddDecision.dtrue) = true := rfl
    have b2 : (AddDecision.dfalse == AddDecision.dtrue) = false := rfl
    have b3 : (AddDecision.dfalse == AddDecision.dask) = false := rfl
    have b4 : (AddDecision.dask == AddDecision.dtrue) = false := rfl
    have b5 : (AddDecision.dask == AddDecision.dask) = true := rfl
    rcases hr : (_check_single_git_add_command ctx sub).1 with _ | _ | _
    · simp [hr, b1]
    · simp [hr, ih, b2, b3]
    · rcases firstAsk with _ | r0
      · simp only [hr, b4, b5]
        simp [ih]
      · simp [hr, ih, b4, b5]

/-- Claim C1: for a compound shell command the per-subcommand verdicts are
combined with precedence Deny over Ask over Allow: the overall result is the
first Deny verdict if any subcommand yields Deny (wherever it occurs), else
the first Ask verdict, else Allow — for both check_git_branch_workflow and
check_git_add_command; and check_git_add_command("git add -A") is a Deny. -/
theorem claim_C1 :
    (∀ (ctx : WorkflowCtx) (command : String),
        check_git_branch_workflow ctx command =
          (match (workflowVerdicts ctx (extract_subcommands command) none).find?
              (fun v => v.1 == Decision.block) with
           | some v => (Decision.block, v.2)
           | none =>
             match (workflowVerdicts ctx (extract_subcommands command) none).find?
                 (fun v => v.1 == Decision.ask) with
             | some v => (Decision.ask, v.2)
             | none => (Decision.allow, none))) ∧
    (∀ (ctx : AddCtx) (command : String),
        check_git_add_command ctx command =
          (match ((extract_subcommands command).map
              (_check_single_git_add_command ctx)).find?
              (fun v => v.1 == AddDecision.dtrue) with
           | some v => v
           | none =>
             match ((extract_subcommands command).map
                 (_check_single_git_add_command ctx)).find?
                 (fun v => v.1 == AddDecision.dask) with
             | some v => v
             | none => (AddDecision.dfalse, none))) ∧
    (∀ ctx : AddCtx, check_git_add_command ctx "git add -A" =
        (AddDecision.dtrue, some dangerousAddReason)) := by
  refine ⟨check_git_branch_workflow_combination, ?_, ?_⟩
  · intro ctx command
    rw [check_git_add_command, cgacLoop_spec]
  · intro ctx
    rfl

/-- Claim C2: an rm command outside a git repository is always denied; inside
a repository with a nonempty target list it is allowed iff every target
(after stripping trailing slashes) is git-ignored, and a denial names the
non-ignored targets through the capped five-plus-count list. -/
theorem claim_C2 :
    (∀ (ctx : RmCtx) (command : String),
        isRmCommand (normSpaces command) = true → ctx.inRepo = false →
        check_rm_command ctx command = (true, some rmOutsideRepoReason)) ∧
    (∀ (ctx : RmCtx) (command : String),
        isRmCommand (normSpaces command) = true → ctx.inRepo = true →
        extract_rm_targets (normSpaces command) ≠ [] →
        (check_rm_command ctx command = (false, none) ↔
          ∀ t ∈ extract_rm_targets (normSpaces command),
            ctx.ignored (rstripSlash t) = true)) ∧
    (∀ (ctx : RmCtx) (command : String),
        isRmCommand (normSpaces command) = true → ctx.inRepo = true →
        (extract_rm_targets (normSpaces command)).filter
            (fun t => ! ctx.ignored (rstripSlash t)) ≠ [] →
        check_rm_command ctx command =
          (true, some (rmDenyReason
            ((extract_rm_targets (normSpaces command)).filter
              (fun t => ! ctx.ignored (rstripSlash t)))))) := by
  refine ⟨?_, ?_, ?_⟩
  · intro ctx command h1 h2
    simp [check_rm_command, h1, h2]
  · intro ctx command h1 h2 h3
    constructor
    · intro heq t ht
      by_contra hNotIgn
      have hfil : (extract_rm_targets (normSpaces command)).filter
          (fun t => ! ctx.ignored (rstripSlash t)) ≠ [] := by
        intro hnil
        rw [List.filter_eq_nil_iff] at hnil
        exact hnil t ht (by simp [Bool.not_eq_true] at hNotIgn ⊢; exact hNotIgn)
      simp [check_rm_command, h1, h2, h3, hfil] at heq
    · intro hall
      have hfil : (extract_rm_targets (normSpaces command)).filter
          (fun t => ! ctx.ignored (rstripSlash t)) = [] := by
        rw [List.filter_eq_nil_iff]
        intro t ht
        simp [hall t ht]
      simp [check_rm_command, h1, h2, h3, hfil]
  · intro ctx command h1 h2 h3
    have hne : (extract_rm_targets (normSpaces command)) ≠ [] := by
      intro hnil
      rw [hnil] at h3
      simp at h3
    simp [check_rm_command, h1, h2, hne, h3]

/-- Claim C2 witness: the three statements applied at concrete contexts and
commands. -/
theorem claim_C2_witness :
    check_rm_command rmCtxOut "rm foo.txt" = (true, some rmOutsideRepoReason) ∧
    check_rm_command rmCtxInAll "rm a b/" = (false, none) ∧
    check_rm_command rmCtxInNone "rm a b c d e f g" =
      (true, some (rmDenyReason ["a", "b", "c", "d", "e", "f", "g"])) :=
  ⟨claim_C2.1 rmCtxOut "rm foo.txt" (by decide) rfl,
   (claim_C2.2.1 rmCtxInAll "rm a b/" (by decide) rfl (by decide)).mpr
      (by decide),
   claim_C2.2.2 rmCtxInNone "rm a b c d e f g" (by decide) rfl (by decide)⟩

/-- Claim C3: for a git commit subcommand, a current branch of exactly main
or master yields Deny with the protected-branch explanation; a branch not
matching the uppercase-letters-dash-digits pattern yields Ask with the
missing-prefix hint; a matching branch still yields Ask (commits always
require confirmation); and creating a branch named my-feature yields Ask
with the prefix-format hint. -/
theorem claim_C3 :
    (∀ (ctx : WorkflowCtx) (subcmd : String) (cwd : Option String) (b : String),
        pyStarts (pyLower (normalize_git_command ctx (pyStrip subcmd)).1) "git commit" = true →
        get_current_branch ctx (effectiveCwd ctx subcmd cwd) = some b →
        b ∈ protectedBranches →
        _check_single_subcommand ctx subcmd cwd =
          (Decision.block, some (protectedBranchReason b))) ∧
    (∀ (ctx : WorkflowCtx) (subcmd : String) (cwd : Option String) (b : String),
        pyStarts (pyLower (normalize_git_command ctx (pyStrip subcmd)).1) "git commit" = true →
        get_current_branch ctx (effectiveCwd ctx subcmd cwd) = some b →
        b ∉ protectedBranches →
        jiraMatch b = false →
        _check_single_subcommand ctx subcmd cwd =
          (Decision.ask, some (missingJiraReason b))) ∧
    (∀ (ctx : WorkflowCtx) (subcmd : String) (cwd : Option String) (b : String),
        pyStarts (pyLower (normalize_git_command ctx (pyStrip subcmd)).1) "git commit" = true →
        get_current_branch ctx (effectiveCwd ctx subcmd cwd) = some b →
        b ∉ protectedBranches →
        jiraMatch b = true →
        _check_single_subcommand ctx subcmd cwd =
          (Decision.ask, some "Git commit requires your approval.")) ∧
    (∀ (ctx : WorkflowCtx) (cwd : Option String),
        _check_single_subcommand ctx "git checkout -b my-feature" cwd =
          (Decision.ask, some (proposedBranchReason "my-feature"))) := by
  refine ⟨?_, ?_, ?_, ?_⟩
  · intro ctx subcmd cwd b h1 h2 h3
    simp [_check_single_subcommand, h1, h2, h3]
  · intro ctx subcmd cwd b h1 h2 h3 h4
    simp [_check_single_subcommand, h1, h2, h3, h4]
  · intro ctx subcmd cwd b h1 h2 h3 h4
    simp [_check_single_subcommand, h1, h2, h3, h4]
  · intro ctx cwd
    rfl

/-- Claim C3 witness: the four statements applied at concrete branch
oracles and the concrete commands. -/
theorem claim_C3_witness :
    _check_single_subcommand wfCtxMain "git commit -m x" none =
      (Decision.block, some (protectedBranchReason "main")) ∧
    _check_single_subcommand wfCtxBad "git commit -m x" none =
      (Decision.ask, some (missingJiraReason "my-feature")) ∧
    _check_single_subcommand wfCtxFeat "git commit -m x" none =
      (Decision.ask, some "Git commit requires your approval.") ∧
    _check_single_subcommand wfCtxMain "git checkout -b my-feature" none =
      (Decision.ask, some (proposedBranchReason "my-feature")) :=
  ⟨claim_C3.1 wfCtxMain "git commit -m x" none "main" (by decide) (by decide)
      (by decide),
   claim_C3.2.1 wfCtxBad "git commit -m x" none "my-feature" (by decide) (by decide)
      (by decide) (by decide),
   claim_C3.2.2.1 wfCtxFeat "git commit -m x" none "PROJ-123-x" (by decide) (by decide)
      (by decide) (by decide),
   claim_C3.2.2.2 wfCtxMain none⟩

/-- Claim C9: a failed current-branch query resolves to None (raised
exception or nonzero return code), and a git commit subcommand evaluated
with a None branch yields Allow. -/
theorem claim_C9 :
    (∀ (ctx : WorkflowCtx) (cwd : Option String),
        ctx.branchRaw cwd = none → get_current_branch ctx cwd = none) ∧
    (∀ (ctx : WorkflowCtx) (cwd : Option String) (rc : Int) (out : String),
        ctx.branchRaw cwd = some (rc, out) → rc ≠ 0 →
        get_current_branch ctx cwd = none) ∧
    (∀ (ctx : WorkflowCtx) (subcmd : String) (cwd : Option String),
        pyStarts (pyLower (normalize_git_command ctx (pyStrip subcmd)).1) "git commit" = true →
        get_current_branch ctx (effectiveCwd ctx subcmd cwd) = none →
        _check_single_subcommand ctx subcmd cwd = (Decision.allow, none)) := by
  refine ⟨?_, ?_, ?_⟩
  · intro ctx cwd h
    simp [get_current_branch, h]
  · intro ctx cwd rc out h hrc
    simp [get_current_branch, h, hrc]
  · intro ctx subcmd cwd h1 h2
    simp [_check_single_subcommand, h1, h2]

/-- Claim C9 witness: the statements applied at a raising oracle and at a
failing git call. -/
theorem claim_C9_witness :
    get_current_branch wfCtxNone none = none ∧
    get_current_branch wfCtxFail (some "/tmp") = none ∧
    _check_single_subcommand wfCtxNone "git commit -m x" none = (Decision.allow, none) :=
  ⟨claim_C9.1 wfCtxNone none rfl,
   claim_C9.2.1 wfCtxFail (some "/tmp") 128 "fatal: not a git repository" rfl
      (by decide),
   claim_C9.2.2 wfCtxNone "git commit -m x" none (by decide) (by decide)⟩

/-- Claim C4 counterexample: a kubectl verb in neither the read-only set nor
the destructive set need not be denied — port-forward is in the
ask-permission set and yields Ask, refuting that every verb outside the two
sets is denied. -/
theorem claim_C4_counterexample :
    (check_kubectl_command "kubectl port-forward pod/web 8080:80").1 = Decision.ask ∧
    (check_kubectl_command "kubectl port-forward pod/web 8080:80").1 ≠ Decision.block := by
  decide

/-- Claim C4 (amended): for the kubectl and terraform checks, read-only verbs
yield Allow; destructive verbs without a dry-run flag yield Deny; a kubectl
destructive verb with a dry-run flag yields Allow (terraform has no dry-run
bypass); kubectl verbs in the ask-permission set (port-forward, proxy) yield
Ask; and a first verb in none of these sets yields Deny listing the
known-safe verbs. -/
theorem claim_C4_amended :
    (∀ (command : String) (parts : List String) (v : String),
        pyStarts (pyStrip command) "kubectl" = true →
        shlex_split command = some parts →
        parts.length ≥ 2 →
        kubectlFindVerb parts.tail = some v →
        v ≠ "" →
        ((v ∈ kubectlReadOnly → check_kubectl_command command = (Decision.allow, none)) ∧
         (v ∈ kubectlDestructive →
            parts.all (fun p => ! pyStarts p "--dry-run") = true →
            check_kubectl_command command =
              (Decision.block,
               some (kubectlDestructiveReason command (kubectlContext parts) v))) ∧
         (v ∈ kubectlDestructive →
            parts.any (fun p => pyStarts p "--dry-run") = true →
            check_kubectl_command command = (Decision.allow, none)) ∧
         (v ∈ kubectlAskPermission →
            check_kubectl_command command =
              (Decision.ask, some (kubectlAskReason command (kubectlContext parts) v))) ∧
         (v ∉ kubectlReadOnly → v ∉ kubectlDestructive → v ∉ kubectlAskPermission →
            check_kubectl_command command = (Decision.block, some (kubectlUnknownReason v))))) ∧
    (∀ (command : String) (parts : List String) (v : String),
        (pyStarts (pyStrip command) "terraform" || pyStarts (pyStrip command) "tf ") = true →
        shlex_split command = some parts →
        parts.length ≥ 2 →
        terraformFindVerb parts.tail = some v →
        v ≠ "" →
        ((v ∈ terraformReadOnly → check_terraform_command command = (Decision.allow, none)) ∧
         (v ∈ terraformDestructive →
            check_terraform_command command =
              (Decision.block, some (terraformDestructiveReason command v))) ∧
         (v ∉ terraformReadOnly → v ∉ terraformDestructive →
            check_terraform_command command =
              (Decision.block, some (terraformUnknownReason v))))) := by
  constructor
  · intro command parts v h1 h2 hlen hverb hne
    have hro : ∀ x ∈ kubectlReadOnly, x ∈ kubectlDestructive → False := by decide
    have hask : ∀ x ∈ kubectlAskPermission,
        x ∉ kubectlReadOnly ∧ x ∉ kubectlDestructive := by decide
    rcases parts with _ | ⟨p0, rest⟩
    · simp at hlen
    · have hlt : ¬ ((p0 :: rest).length < 2) := by
        simp at hlen ⊢
        omega
      have hverb2 : kubectlFindVerb rest = some v := by simpa using hverb
      have hr1 : 1 ≤ rest.length := by
        simp at hlen
        omega
      refine ⟨?_, ?_, ?_, ?_, ?_⟩
      · intro hv
        simp [check_kubectl_command, h1, h2, hlt, hr1, hverb2, hne, hv]
      · intro hv hdry
        have hnr : v ∉ kubectlReadOnly := fun hr => hro v hr hv
        have hnone : ((p0 :: rest).any (fun p => pyStarts p "--dry-run")) = false := by
          rw [List.all_eq_true] at hdry
          rw [List.any_eq_false]
          intro p hp
          simpa using hdry p hp
        simp [check_kubectl_command, h1, h2, hlt, hr1, hverb2, hne, hv, hnr, hnone]
      · intro hv hdry
        have hnr : v ∉ kubectlReadOnly := fun hr => hro v hr hv
        simp [check_kubectl_command, h1, h2, hlt, hr1, hverb2, hne, hv, hnr, hdry]
      · intro hv
        obtain ⟨hnr, hnd⟩ := hask v hv
        simp [check_kubectl_command, h1, h2, hlt, hr1, hverb2, hne, hv, hnr, hnd]
      · intro hnr hnd hna
        simp [check_kubectl_command, h1, h2, hlt, hr1, hverb2, hne, hnr, hnd, hna]
  · intro command parts v h1 h2 hlen hverb hne
    have hro : ∀ x ∈ terraformReadOnly, x ∈ terraformDestructive → False := by decide
    rcases parts with _ | ⟨p0, rest⟩
    · simp at hlen
    · have hlt : ¬ ((p0 :: rest).length < 2) := by
        simp at hlen ⊢
        omega
      have hverb2 : terraformFindVerb rest = some v := by simpa using hverb
      have hr1 : 1 ≤ rest.length := by
        simp at hlen
        omega
      refine ⟨?_, ?_, ?_⟩
      · intro hv
        simp [check_terraform_command, h1, h2, hlt, hr1, hverb2, hne, hv]
      · intro hv
        have hnr : v ∉ terraformReadOnly := fun hr => hro v hr hv
        simp [check_terraform_command, h1, h2, hlt, hr1, hverb2, hne, hv, hnr]
      · intro hnr hnd
        simp [check_terraform_command, h1, h2, hlt, hr1, hverb2, hne, hnr, hnd]

/-- Claim C4 witness: the amended statements applied at concrete commands
covering every verb class. -/
theorem claim_C4_witness :
    check_kubectl_command "kubectl get pods" = (Decision.allow, none) ∧
    check_kubectl_command "kubectl --context ops delete pod x" =
      (Decision.block,
       some (kubectlDestructiveReason "kubectl --context ops delete pod x" "ops" "delete")) ∧
    check_kubectl_command "kubectl delete pod x --dry-run=client" = (Decision.allow, none) ∧
    check_kubectl_command "kubectl port-forward pod/web 8080:80" =
      (Decision.ask,
       some (kubectlAskReason "kubectl port-forward pod/web 8080:80" "default" "port-forward")) ∧
    check_kubectl_command "kubectl frobnicate" =
      (Decision.block, some (kubectlUnknownReason "frobnicate")) ∧
    check_terraform_command "terraform plan" = (Decision.allow, none) ∧
    check_terraform_command "terraform apply" =
      (Decision.block, some (terraformDestructiveReason "terraform apply" "apply")) ∧
    check_terraform_command "terraform frobnicate" =
      (Decision.block, some (terraformUnknownReason "frobnicate")) :=
  ⟨(claim_C4_amended.1 "kubectl get pods" ["kubectl", "get", "pods"] "get" (by decide)
      (by decide) (by decide) (by decide) (by decide)).1 (by decide),
   ((claim_C4_amended.1 "kubectl --context ops delete pod x"
      ["kubectl", "--context", "ops", "delete", "pod", "x"] "delete" (by decide)
      (by decide) (by decide) (by decide) (by decide)).2.1 (by decide) (by decide)),
   ((claim_C4_amended.1 "kubectl delete pod x --dry-run=client"
      ["kubectl", "delete", "pod", "x", "--dry-run=client"] "delete" (by decide)
      (by decide) (by decide) (by decide) (by decide)).2.2.1 (by decide) (by decide)),
   ((claim_C4_amended.1 "kubectl port-forward pod/web 8080:80"
      ["kubectl", "port-forward", "pod/web", "8080:80"] "port-forward" (by decide)
      (by decide) (by decide) (by decide) (by decide)).2.2.2.1 (by decide)),
   ((claim_C4_amended.1 "kubectl frobnicate" ["kubectl", "frobnicate"] "frobnicate"
      (by decide) (by decide) (by decide) (by decide) (by decide)).2.2.2.2
      (by decide) (by decide) (by decide)),
   ((claim_C4_amended.2 "terraform plan" ["terraform", "plan"] "plan" (by decide)
      (by decide) (by decide) (by decide) (by decide)).1 (by decide)),
   ((claim_C4_amended.2 "terraform apply" ["terraform", "apply"] "apply" (by decide)
      (by decide) (by decide) (by decide) (by decide)).2.1 (by decide)),
   ((claim_C4_amended.2 "terraform frobnicate" ["terraform", "frobnicate"] "frobnicate"
      (by decide) (by decide) (by decide) (by decide) (by decide)).2.2
      (by decide) (by decide))⟩

/-- Claim C5 counterexample: a destructive terraform verb yields a deny
(block) verdict, not an ask-for-confirmation verdict. -/
theorem claim_C5_counterexample :
    (check_terraform_command "terraform apply").1 = Decision.block ∧
    (check_terraform_command "terraform apply").1 ≠ Decision.ask := by
  decide

/-- Claim C5 (amended): every terraform command whose first verb is in the
destructive set yields a Deny (block) verdict, with no dry-run bypass — the
hypotheses place no restriction on flags, so dry-run-style flags cannot
change the result. -/
theorem claim_C5_amended
    (command : String) (parts : List String) (v : String)
    (h1 : (pyStarts (pyStrip command) "terraform" || pyStarts (pyStrip command) "tf ") = true)
    (h2 : shlex_split command = some parts)
    (hlen : parts.length ≥ 2)
    (hverb : terraformFindVerb parts.tail = some v)
    (hne : v ≠ "")
    (hv : v ∈ terraformDestructive) :
    check_terraform_command command = (Decision.block, some (terraformDestructiveReason command v)) := by
  have hro : ∀ x ∈ terraformReadOnly, x ∈ terraformDestructive → False := by decide
  rcases parts with _ | ⟨p0, rest⟩
  · simp at hlen
  · have hlt : ¬ ((p0 :: rest).length < 2) := by
      simp at hlen ⊢
      omega
    have hverb2 : terraformFindVerb rest = some v := by simpa using hverb
    have hr1 : 1 ≤ rest.length := by
      simp at hlen
      omega
    have hnr : v ∉ terraformReadOnly := fun hr => hro v hr hv
    simp [check_terraform_command, h1, h2, hlt, hr1, hverb2, hne, hv, hnr]

/-- Claim C5 witness: the amended statement applied to terraform destroy with
a dry-run-style flag present — the flag does not change the deny. -/
theorem claim_C5_witness :
    check_terraform_command "terraform destroy --dry-run" =
      (Decision.block,
       some (terraformDestructiveReason "terraform destroy --dry-run" "destroy")) :=
  claim_C5_amended "terraform destroy --dry-run"
    ["terraform", "destroy", "--dry-run"] "destroy" (by decide) (by decide)
    (by decide) (by decide) (by decide) (by decide)

/-- Claim C10: a git checkout subcommand whose text contains the substring
"-b" anywhere — including inside a branch or file name — is allowed
immediately, for every repository state: the always-deny textual patterns
and the uncommitted-changes query are bypassed. -/
theorem claim_C10 (ctx : CheckoutCtx) (command : String)
    (h1 : pyStarts (pyStrip command) "git checkout" = true)
    (h2 : pySub "-b" command = true) :
    _check_single_git_checkout_command ctx command = (false, none) := by
  simp [_check_single_git_checkout_command, h1, h2]

/-- Claim C10 witness: `git checkout -f my-branch` contains "-b" inside the
branch name, so even with a force flag and a dirty working tree the check
allows it. -/
theorem claim_C10_witness :
    checkoutP1 "git checkout -f my-branch" = true ∧
    _check_single_git_checkout_command coCtxDirty "git checkout -f my-branch" =
      (false, none) :=
  ⟨by decide,
   claim_C10 coCtxDirty "git checkout -f my-branch" (by decide) (by decide)⟩

/-- Counting the n-line witness content gives n. -/
theorem slGo_bigChars (n : Nat) : slGo false (bigChars n) = n := by
  have step : ∀ l, slGo false ('x' :: '\n' :: l) = 1 + slGo false l := fun _ => rfl
  induction n with
  | zero => rfl
  | succ k ih =>
    rw [bigChars, step (bigChars k), ih]
    omega

/-- The witness content is nonempty. -/
theorem bigChars_succ_ne_nil (n : Nat) : bigChars (n + 1) ≠ [] := by
  rw [bigChars]
  simp

/-- The resulting line count of the witness Write is 10001. -/
theorem count_bigWrite :
    get_resulting_line_count emptyFs bigWrite.tool_name bigWrite.file_path bigWrite =
      10001 := by
  have hne : (⟨bigChars 10001⟩ : String) ≠ "" := by
    intro h
    have h2 : bigChars 10001 = [] := congrArg String.data h
    exact bigChars_succ_ne_nil 10000 (by rw [← h2])
  have hc : count_lines_in_content bigWrite.content = 10001 := by
    show count_lines_in_content ⟨bigChars 10001⟩ = 10001
    rw [count_lines_in_content, if_neg hne]
    exact slGo_bigChars 10001
  show get_resulting_line_count emptyFs "Write" "big.py" bigWrite = 10001
  rw [get_resulting_line_count, if_pos rfl]
  exact hc

/-- Claim C8: for a Write/Edit of a recognised source-code file whose
resulting line count exceeds 10000 lines, the first invocation (sentinel
absent) denies and sets the sentinel; the next invocation on the same input
(sentinel present) allows and clears the sentinel; a third identical
invocation denies again — the check alternates Deny/Allow on repeated
identical over-limit inputs. -/
theorem claim_C8 (fs : String → Option (Except Unit String)) (d : FileToolData)
    (h1 : d.tool_name = "Edit" ∨ d.tool_name = "Write")
    (h2 : is_source_code_file d.file_path = true)
    (h3 : get_resulting_line_count fs d.tool_name d.file_path d > 10000) :
    check_file_length_limit fs false d =
      ((true, some (fileLengthReason d.file_path
        (get_resulting_line_count fs d.tool_name d.file_path d))), true) ∧
    check_file_length_limit fs true d = ((false, none), false) ∧
    (check_file_length_limit fs
      ((check_file_length_limit fs
        ((check_file_length_limit fs false d).2) d).2) d).1.1 = true := by
  have hle : ¬ (get_resulting_line_count fs d.tool_name d.file_path d ≤ 10000) := by
    omega
  refine ⟨?_, ?_, ?_⟩ <;> simp [check_file_length_limit, h1, h2, hle]

/-- Claim C8 witness: a Write of 10001 lines to big.py — denied with the
sentinel set, then allowed with the sentinel cleared. -/
theorem claim_C8_witness :
    check_file_length_limit emptyFs false bigWrite =
      ((true, some (fileLengthReason "big.py" 10001)), true) ∧
    check_file_length_limit emptyFs true bigWrite = ((false, none), false) := by
  have h := claim_C8 emptyFs bigWrite (Or.inr rfl) (by decide)
    (by rw [count_bigWrite]; omega)
  refine ⟨?_, h.2.1⟩
  rw [h.1, count_bigWrite]
  rfl

/-- Claim C6: the six secret-file-exposure test vectors — reading .env is
blocked, reading .env.example is allowed, grepping with path .env is
blocked, grepping with glob **/.env.example is allowed, `cat .env` is
blocked, and a git commit message mentioning .env is allowed. -/
theorem claim_C6 :
    (check_env_read ".env").1 = true ∧
    (check_env_read ".env.example").1 = false ∧
    (check_env_grep ".env" "*.py").1 = true ∧
    (check_env_grep "" "**/.env.example").1 = false ∧
    (check_env_bash "cat .env").1 = true ∧
    (check_env_bash "git commit -m \x27update .env docs\x27").1 = false := by
  decide

/-- Claim C7 (amended): the compound splitter splits on every `&&`, `||`, `;`
separator occurrence — including separators that appear inside single or
double quotes — trims whitespace from each resulting segment, drops empty
segments, and preserves left-to-right order; in particular
extract_subcommands("cd /tmp && git add . && git commit -m 'msg'") returns
exactly ["cd /tmp", "git add .", "git commit -m 'msg'"]. -/
theorem claim_C7_amended :
    (extract_subcommands "cd /tmp && git add . && git commit -m \x27msg\x27" =
        ["cd /tmp", "git add .", "git commit -m \x27msg\x27"]) ∧
    (∀ command s, s ∈ extract_subcommands command → pyStrip s = s ∧ s ≠ "") ∧
    (∀ command, noSepL command.data = true →
        extract_subcommands command =
          if pyStrip command = "" then [] else [pyStrip command]) ∧
    (∀ a b : String, noSepL a.data = true →
        extract_subcommands (a ++ ";" ++ b) =
          extract_subcommands a ++ extract_subcommands b) := by
  refine ⟨by decide, ?_, extract_noSep, extract_append_semi⟩
  intro command s hs
  unfold extract_subcommands at hs
  split at hs
  · simp at hs
  · rw [List.mem_filter] at hs
    obtain ⟨hmem, hne⟩ := hs
    refine ⟨?_, by simpa using hne⟩
    rw [List.mem_map] at hmem
    obtain ⟨cs, _, hcs⟩ := hmem
    rw [← hcs, pyStrip_idem]

/-- Claim C7 counterexample: a separator inside single quotes still splits,
refuting the quote-awareness asserted by the claim. -/
theorem claim_C7_counterexample :
    extract_subcommands "echo \x27a && b\x27" = ["echo \x27a", "b\x27"] ∧
    extract_subcommands "echo \x27a && b\x27" ≠ ["echo \x27a && b\x27"] := by
  decide

/-- Claim C7 witness: the amended theorem applied at concrete inputs. -/
theorem claim_C7_witness :
    noSepL ("echo hi" : String).data = true ∧
    extract_subcommands ("echo hi" ++ ";" ++ "ls -l") =
      extract_subcommands "echo hi" ++ extract_subcommands "ls -l" :=
  ⟨by decide, claim_C7_amended.2.2.2 "echo hi" "ls -l" (by decide)⟩

end ClaudeHooks
